import Mathlib

/-!
# GLFW backend UI: window lifecycle, reference counting and callback routing

A shallow embedding of `src/plugin/PluginUI.cpp` and `src/plugin/glfw_callbacks.cpp`.

* Every member routine of `GlfwBackendExampleUI` becomes a function on an explicit
  `State` that returns the native calls it issues, in program order, together with
  the state it leaves behind.
* `static uint32_t glfw_initialized_cnt` is a natural number below `2^32`;
  `++` and `--` wrap around (`incr32`, `decr32`).
* The outcome of `glfwInit` and of `glfwCreateWindow` is a parameter.
* The drawing thread is a small state machine advanced by scheduler steps;
  `std::thread::join` runs it to its end, and never returns when the thread
  cannot reach its end.
* `#if _WIN32` sections are left out (the non-Windows build is modelled).
-/

namespace GlfwBackend

/-! ## Handles and machine values -/

/-- The `this` pointer of a `GlfwBackendExampleUI`: the index of the instance. -/
abbrev InstId := Nat

/-- A non-null `GLFWwindow*`: the index of the window in the window table. -/
abbrev WinId := Nat

/-- A non-null `ImGuiContext*`: the index of the context in the context table. -/
abbrev CtxId := Nat

/-- A C `double`, kept as its 64-bit pattern; the code only passes doubles on. -/
structure Double where
  bits : Nat
deriving DecidableEq

/-- The value of a `uint32_t` after `++`: `(n + 1) mod 2^32`. -/
def incr32 (n : Nat) : Nat := if n + 1 < 2 ^ 32 then n + 1 else 0

/-- The value of a `uint32_t` after `--`: `(n - 1) mod 2^32`. -/
def decr32 (n : Nat) : Nat := if n = 0 then 2 ^ 32 - 1 else n - 1

/-- Conversion of a `uint` to `int` (two's complement, 32 bits). -/
def toInt32 (n : Nat) : Int :=
  if n % 2 ^ 32 < 2 ^ 31 then ((n % 2 ^ 32 : Nat) : Int) else ((n % 2 ^ 32 : Nat) : Int) - 2 ^ 32

/-- Distance between neighbouring `float` values around the 32-bit unsigned `n`
(24-bit significand). -/
def floatUlp (n : Nat) : Nat :=
  if n < 2 ^ 24 then 1
  else if n < 2 ^ 25 then 2
  else if n < 2 ^ 26 then 4
  else if n < 2 ^ 27 then 8
  else if n < 2 ^ 28 then 16
  else if n < 2 ^ 29 then 32
  else if n < 2 ^ 30 then 64
  else if n < 2 ^ 31 then 128
  else 256

/-- The value of `(float)n` for a `uint` `n`: round to nearest, ties to even.
The result is always a whole number, so it is kept as an integer. -/
def toFloat (n : Nat) : Int :=
  let u := floatUlp n
  let q := n / u
  let r := n % u
  if u < 2 * r ∨ (2 * r = u ∧ q % 2 = 1) then (((q + 1) * u : Nat) : Int) else ((q * u : Nat) : Int)

/-- The window hints set by `setupGLFW`. -/
inductive Hint where
  | GLFW_RESIZABLE
  | GLFW_DECORATED
  | GLFW_EMBEDDED_WINDOW
deriving DecidableEq

/-- A native input event with the arguments GLFW passes to the callback. -/
inductive InputEvent where
  | char (c : Nat)
  | cursorEnter (entered : Int)
  | mouseButton (button action mods : Int)
  | scroll (xoffset yoffset : Double)
  | key (key scancode action mods : Int)
  | cursorPos (x y : Double)
deriving DecidableEq

/-- Calls that leave the class: GLFW, Dear ImGui and its backends, OpenGL,
`std::thread` and the DPF base class. A window argument is the pointer the code
passes (`none` is `NULL`). -/
inductive Call where
  | glfwSetErrorCallback
  | glfwInit
  | glfwTerminate
  | glfwWindowHint (hint : Hint) (value : Bool)
  | glfwWindowHintVoid (parent : Nat)
  | glfwCreateWindow (width height : Int)
  | glfwSetWindowPos (w : Option WinId) (x y : Int)
  | glfwSetWindowCloseCallback (w : Option WinId)
  | glfwSetWindowUserPointer (w : Option WinId) (inst : InstId)
  | glfwGetWindowUserPointer (w : WinId)
  | glfwSetWindowShouldClose (w : Option WinId) (value : Bool)
  | glfwWindowShouldClose (w : Option WinId)
  | glfwDestroyWindow (w : Option WinId)
  | glfwPollEvents
  | glfwSetWindowSize (w : Option WinId) (width height : Int)
  | glfwMakeContextCurrent (w : Option WinId)
  | glfwSwapInterval (interval : Int)
  | glfwSwapBuffers (w : Option WinId)
  | glfwGetFramebufferSize (w : Option WinId)
  | glfwSetCharCallback (w : Option WinId)
  | glfwSetCursorEnterCallback (w : Option WinId)
  | glfwSetMouseButtonCallback (w : Option WinId)
  | glfwSetScrollCallback (w : Option WinId)
  | glfwSetKeyCallback (w : Option WinId)
  | glfwSetCursorPosCallback (w : Option WinId)
  | threadStart (inst : InstId)
  | threadJoin (inst : InstId)
  | ImGui_CreateContext
  | ImGui_SetCurrentContext (c : Option CtxId)
  | ImGui_GetIO
  | ImGui_StyleColorsDark
  | ImGui_DestroyContext (c : Option CtxId)
  | ImGui_NewFrame
  | ImGui_ShowDemoWindow
  | ImGui_Render
  | ImGui_ImplGlfw_InitForOpenGL (w : Option WinId) (install_callbacks : Bool)
  | ImGui_ImplGlfw_NewFrame
  | ImGui_ImplGlfw_Shutdown
  | ImGui_ImplOpenGL2_Init
  | ImGui_ImplOpenGL2_NewFrame
  | ImGui_ImplOpenGL2_RenderDrawData
  | ImGui_ImplOpenGL2_Shutdown
  | glViewport
  | glClearColor
  | glClear
  | ImGui_ImplGlfw_CharCallback (w : Option WinId) (c : Nat)
  | ImGui_ImplGlfw_CursorEnterCallback (w : Option WinId) (entered : Int)
  | ImGui_ImplGlfw_MouseButtonCallback (w : Option WinId) (button action mods : Int)
  | ImGui_ImplGlfw_ScrollCallback (w : Option WinId) (xoffset yoffset : Double)
  | ImGui_ImplGlfw_KeyCallback (w : Option WinId) (key scancode action mods : Int)
  | ImGui_ImplGlfw_CursorPosCallback (w : Option WinId) (x y : Double)
  | hide (inst : InstId)

/-- The native function of a call, without its arguments. -/
inductive CallKind where
  | glfwSetErrorCallback
  | glfwInit
  | glfwTerminate
  | glfwWindowHint
  | glfwWindowHintVoid
  | glfwCreateWindow
  | glfwSetWindowPos
  | glfwSetWindowCloseCallback
  | glfwSetWindowUserPointer
  | glfwGetWindowUserPointer
  | glfwSetWindowShouldClose
  | glfwWindowShouldClose
  | glfwDestroyWindow
  | glfwPollEvents
  | glfwSetWindowSize
  | glfwMakeContextCurrent
  | glfwSwapInterval
  | glfwSwapBuffers
  | glfwGetFramebufferSize
  | glfwSetCharCallback
  | glfwSetCursorEnterCallback
  | glfwSetMouseButtonCallback
  | glfwSetScrollCallback
  | glfwSetKeyCallback
  | glfwSetCursorPosCallback
  | threadStart
  | threadJoin
  | ImGui_CreateContext
  | ImGui_SetCurrentContext
  | ImGui_GetIO
  | ImGui_StyleColorsDark
  | ImGui_DestroyContext
  | ImGui_NewFrame
  | ImGui_ShowDemoWindow
  | ImGui_Render
  | ImGui_ImplGlfw_InitForOpenGL
  | ImGui_ImplGlfw_NewFrame
  | ImGui_ImplGlfw_Shutdown
  | ImGui_ImplOpenGL2_Init
  | ImGui_ImplOpenGL2_NewFrame
  | ImGui_ImplOpenGL2_RenderDrawData
  | ImGui_ImplOpenGL2_Shutdown
  | glViewport
  | glClearColor
  | glClear
  | ImGui_ImplGlfw_CharCallback
  | ImGui_ImplGlfw_CursorEnterCallback
  | ImGui_ImplGlfw_MouseButtonCallback
  | ImGui_ImplGlfw_ScrollCallback
  | ImGui_ImplGlfw_KeyCallback
  | ImGui_ImplGlfw_CursorPosCallback
  | hide
deriving DecidableEq

/-- One argument of a call. -/
inductive Arg where
  | opt (p : Option Nat)
  | int (i : Int)
  | nat (n : Nat)
  | bool (b : Bool)
  | hint (h : Hint)
  | double (d : Double)
deriving DecidableEq

/-- The native function a call goes to. -/
def Call.kind : Call → CallKind
  | Call.glfwSetErrorCallback => CallKind.glfwSetErrorCallback
  | Call.glfwInit => CallKind.glfwInit
  | Call.glfwTerminate => CallKind.glfwTerminate
  | Call.glfwWindowHint _ _ => CallKind.glfwWindowHint
  | Call.glfwWindowHintVoid _ => CallKind.glfwWindowHintVoid
  | Call.glfwCreateWindow _ _ => CallKind.glfwCreateWindow
  | Call.glfwSetWindowPos _ _ _ => CallKind.glfwSetWindowPos
  | Call.glfwSetWindowCloseCallback _ => CallKind.glfwSetWindowCloseCallback
  | Call.glfwSetWindowUserPointer _ _ => CallKind.glfwSetWindowUserPointer
  | Call.glfwGetWindowUserPointer _ => CallKind.glfwGetWindowUserPointer
  | Call.glfwSetWindowShouldClose _ _ => CallKind.glfwSetWindowShouldClose
  | Call.glfwWindowShouldClose _ => CallKind.glfwWindowShouldClose
  | Call.glfwDestroyWindow _ => CallKind.glfwDestroyWindow
  | Call.glfwPollEvents => CallKind.glfwPollEvents
  | Call.glfwSetWindowSize _ _ _ => CallKind.glfwSetWindowSize
  | Call.glfwMakeContextCurrent _ => CallKind.glfwMakeContextCurrent
  | Call.glfwSwapInterval _ => CallKind.glfwSwapInterval
  | Call.glfwSwapBuffers _ => CallKind.glfwSwapBuffers
  | Call.glfwGetFramebufferSize _ => CallKind.glfwGetFramebufferSize
  | Call.glfwSetCharCallback _ => CallKind.glfwSetCharCallback
  | Call.glfwSetCursorEnterCallback _ => CallKind.glfwSetCursorEnterCallback
  | Call.glfwSetMouseButtonCallback _ => CallKind.glfwSetMouseButtonCallback
  | Call.glfwSetScrollCallback _ => CallKind.glfwSetScrollCallback
  | Call.glfwSetKeyCallback _ => CallKind.glfwSetKeyCallback
  | Call.glfwSetCursorPosCallback _ => CallKind.glfwSetCursorPosCallback
  | Call.threadStart _ => CallKind.threadStart
  | Call.threadJoin _ => CallKind.threadJoin
  | Call.ImGui_CreateContext => CallKind.ImGui_CreateContext
  | Call.ImGui_SetCurrentContext _ => CallKind.ImGui_SetCurrentContext
  | Call.ImGui_GetIO => CallKind.ImGui_GetIO
  | Call.ImGui_StyleColorsDark => CallKind.ImGui_StyleColorsDark
  | Call.ImGui_DestroyContext _ => CallKind.ImGui_DestroyContext
  | Call.ImGui_NewFrame => CallKind.ImGui_NewFrame
  | Call.ImGui_ShowDemoWindow => CallKind.ImGui_ShowDemoWindow
  | Call.ImGui_Render => CallKind.ImGui_Render
  | Call.ImGui_ImplGlfw_InitForOpenGL _ _ => CallKind.ImGui_ImplGlfw_InitForOpenGL
  | Call.ImGui_ImplGlfw_NewFrame => CallKind.ImGui_ImplGlfw_NewFrame
  | Call.ImGui_ImplGlfw_Shutdown => CallKind.ImGui_ImplGlfw_Shutdown
  | Call.ImGui_ImplOpenGL2_Init => CallKind.ImGui_ImplOpenGL2_Init
  | Call.ImGui_ImplOpenGL2_NewFrame => CallKind.ImGui_ImplOpenGL2_NewFrame
  | Call.ImGui_ImplOpenGL2_RenderDrawData => CallKind.ImGui_ImplOpenGL2_RenderDrawData
  | Call.ImGui_ImplOpenGL2_Shutdown => CallKind.ImGui_ImplOpenGL2_Shutdown
  | Call.glViewport => CallKind.glViewport
  | Call.glClearColor => CallKind.glClearColor
  | Call.glClear => CallKind.glClear
  | Call.ImGui_ImplGlfw_CharCallback _ _ => CallKind.ImGui_ImplGlfw_CharCallback
  | Call.ImGui_ImplGlfw_CursorEnterCallback _ _ => CallKind.ImGui_ImplGlfw_CursorEnterCallback
  | Call.ImGui_ImplGlfw_MouseButtonCallback _ _ _ _ => CallKind.ImGui_ImplGlfw_MouseButtonCallback
  | Call.ImGui_ImplGlfw_ScrollCallback _ _ _ => CallKind.ImGui_ImplGlfw_ScrollCallback
  | Call.ImGui_ImplGlfw_KeyCallback _ _ _ _ _ => CallKind.ImGui_ImplGlfw_KeyCallback
  | Call.ImGui_ImplGlfw_CursorPosCallback _ _ _ => CallKind.ImGui_ImplGlfw_CursorPosCallback
  | Call.hide _ => CallKind.hide

/-- The arguments of a call. -/
def Call.args : Call → List Arg
  | Call.glfwSetErrorCallback => []
  | Call.glfwInit => []
  | Call.glfwTerminate => []
  | Call.glfwWindowHint hint value => [Arg.hint hint, Arg.bool value]
  | Call.glfwWindowHintVoid parent => [Arg.nat parent]
  | Call.glfwCreateWindow width height => [Arg.int width, Arg.int height]
  | Call.glfwSetWindowPos w x y => [Arg.opt w, Arg.int x, Arg.int y]
  | Call.glfwSetWindowCloseCallback w => [Arg.opt w]
  | Call.glfwSetWindowUserPointer w inst => [Arg.opt w, Arg.nat inst]
  | Call.glfwGetWindowUserPointer w => [Arg.nat w]
  | Call.glfwSetWindowShouldClose w value => [Arg.opt w, Arg.bool value]
  | Call.glfwWindowShouldClose w => [Arg.opt w]
  | Call.glfwDestroyWindow w => [Arg.opt w]
  | Call.glfwPollEvents => []
  | Call.glfwSetWindowSize w width height => [Arg.opt w, Arg.int width, Arg.int height]
  | Call.glfwMakeContextCurrent w => [Arg.opt w]
  | Call.glfwSwapInterval interval => [Arg.int interval]
  | Call.glfwSwapBuffers w => [Arg.opt w]
  | Call.glfwGetFramebufferSize w => [Arg.opt w]
  | Call.glfwSetCharCallback w => [Arg.opt w]
  | Call.glfwSetCursorEnterCallback w => [Arg.opt w]
  | Call.glfwSetMouseButtonCallback w => [Arg.opt w]
  | Call.glfwSetScrollCallback w => [Arg.opt w]
  | Call.glfwSetKeyCallback w => [Arg.opt w]
  | Call.glfwSetCursorPosCallback w => [Arg.opt w]
  | Call.threadStart inst => [Arg.nat inst]
  | Call.threadJoin inst => [Arg.nat inst]
  | Call.ImGui_CreateContext => []
  | Call.ImGui_SetCurrentContext c => [Arg.opt c]
  | Call.ImGui_GetIO => []
  | Call.ImGui_StyleColorsDark => []
  | Call.ImGui_DestroyContext c => [Arg.opt c]
  | Call.ImGui_NewFrame => []
  | Call.ImGui_ShowDemoWindow => []
  | Call.ImGui_Render => []
  | Call.ImGui_ImplGlfw_InitForOpenGL w install_callbacks => [Arg.opt w, Arg.bool install_callbacks]
  | Call.ImGui_ImplGlfw_NewFrame => []
  | Call.ImGui_ImplGlfw_Shutdown => []
  | Call.ImGui_ImplOpenGL2_Init => []
  | Call.ImGui_ImplOpenGL2_NewFrame => []
  | Call.ImGui_ImplOpenGL2_RenderDrawData => []
  | Call.ImGui_ImplOpenGL2_Shutdown => []
  | Call.glViewport => []
  | Call.glClearColor => []
  | Call.glClear => []
  | Call.ImGui_ImplGlfw_CharCallback w c => [Arg.opt w, Arg.nat c]
  | Call.ImGui_ImplGlfw_CursorEnterCallback w entered => [Arg.opt w, Arg.int entered]
  | Call.ImGui_ImplGlfw_MouseButtonCallback w button action mods => [Arg.opt w, Arg.int button, Arg.int action, Arg.int mods]
  | Call.ImGui_ImplGlfw_ScrollCallback w xoffset yoffset => [Arg.opt w, Arg.double xoffset, Arg.double yoffset]
  | Call.ImGui_ImplGlfw_KeyCallback w key scancode action mods => [Arg.opt w, Arg.int key, Arg.int scancode, Arg.int action, Arg.int mods]
  | Call.ImGui_ImplGlfw_CursorPosCallback w x y => [Arg.opt w, Arg.double x, Arg.double y]
  | Call.hide inst => [Arg.nat inst]

/-- The call with a given native function and arguments. -/
def Call.ofKindArgs : CallKind → List Arg → Option Call
  | CallKind.glfwSetErrorCallback, [] => some (Call.glfwSetErrorCallback)
  | CallKind.glfwInit, [] => some (Call.glfwInit)
  | CallKind.glfwTerminate, [] => some (Call.glfwTerminate)
  | CallKind.glfwWindowHint, [Arg.hint hint, Arg.bool value] => some (Call.glfwWindowHint hint value)
  | CallKind.glfwWindowHintVoid, [Arg.nat parent] => some (Call.glfwWindowHintVoid parent)
  | CallKind.glfwCreateWindow, [Arg.int width, Arg.int height] => some (Call.glfwCreateWindow width height)
  | CallKind.glfwSetWindowPos, [Arg.opt w, Arg.int x, Arg.int y] => some (Call.glfwSetWindowPos w x y)
  | CallKind.glfwSetWindowCloseCallback, [Arg.opt w] => some (Call.glfwSetWindowCloseCallback w)
  | CallKind.glfwSetWindowUserPointer, [Arg.opt w, Arg.nat inst] => some (Call.glfwSetWindowUserPointer w inst)
  | CallKind.glfwGetWindowUserPointer, [Arg.nat w] => some (Call.glfwGetWindowUserPointer w)
  | CallKind.glfwSetWindowShouldClose, [Arg.opt w, Arg.bool value] => some (Call.glfwSetWindowShouldClose w value)
  | CallKind.glfwWindowShouldClose, [Arg.opt w] => some (Call.glfwWindowShouldClose w)
  | CallKind.glfwDestroyWindow, [Arg.opt w] => some (Call.glfwDestroyWindow w)
  | CallKind.glfwPollEvents, [] => some (Call.glfwPollEvents)
  | CallKind.glfwSetWindowSize, [Arg.opt w, Arg.int width, Arg.int height] => some (Call.glfwSetWindowSize w width height)
  | CallKind.glfwMakeContextCurrent, [Arg.opt w] => some (Call.glfwMakeContextCurrent w)
  | CallKind.glfwSwapInterval, [Arg.int interval] => some (Call.glfwSwapInterval interval)
  | CallKind.glfwSwapBuffers, [Arg.opt w] => some (Call.glfwSwapBuffers w)
  | CallKind.glfwGetFramebufferSize, [Arg.opt w] => some (Call.glfwGetFramebufferSize w)
  | CallKind.glfwSetCharCallback, [Arg.opt w] => some (Call.glfwSetCharCallback w)
  | CallKind.glfwSetCursorEnterCallback, [Arg.opt w] => some (Call.glfwSetCursorEnterCallback w)
  | CallKind.glfwSetMouseButtonCallback, [Arg.opt w] => some (Call.glfwSetMouseButtonCallback w)
  | CallKind.glfwSetScrollCallback, [Arg.opt w] => some (Call.glfwSetScrollCallback w)
  | CallKind.glfwSetKeyCallback, [Arg.opt w] => some (Call.glfwSetKeyCallback w)
  | CallKind.glfwSetCursorPosCallback, [Arg.opt w] => some (Call.glfwSetCursorPosCallback w)
  | CallKind.threadStart, [Arg.nat inst] => some (Call.threadStart inst)
  | CallKind.threadJoin, [Arg.nat inst] => some (Call.threadJoin inst)
  | CallKind.ImGui_CreateContext, [] => some (Call.ImGui_CreateContext)
  | CallKind.ImGui_SetCurrentContext, [Arg.opt c] => some (Call.ImGui_SetCurrentContext c)
  | CallKind.ImGui_GetIO, [] => some (Call.ImGui_GetIO)
  | CallKind.ImGui_StyleColorsDark, [] => some (Call.ImGui_StyleColorsDark)
  | CallKind.ImGui_DestroyContext, [Arg.opt c] => some (Call.ImGui_DestroyContext c)
  | CallKind.ImGui_NewFrame, [] => some (Call.ImGui_NewFrame)
  | CallKind.ImGui_ShowDemoWindow, [] => some (Call.ImGui_ShowDemoWindow)
  | CallKind.ImGui_Render, [] => some (Call.ImGui_Render)
  | CallKind.ImGui_ImplGlfw_InitForOpenGL, [Arg.opt w, Arg.bool install_callbacks] => some (Call.ImGui_ImplGlfw_InitForOpenGL w install_callbacks)
  | CallKind.ImGui_ImplGlfw_NewFrame, [] => some (Call.ImGui_ImplGlfw_NewFrame)
  | CallKind.ImGui_ImplGlfw_Shutdown, [] => some (Call.ImGui_ImplGlfw_Shutdown)
  | CallKind.ImGui_ImplOpenGL2_Init, [] => some (Call.ImGui_ImplOpenGL2_Init)
  | CallKind.ImGui_ImplOpenGL2_NewFrame, [] => some (Call.ImGui_ImplOpenGL2_NewFrame)
  | CallKind.ImGui_ImplOpenGL2_RenderDrawData, [] => some (Call.ImGui_ImplOpenGL2_RenderDrawData)
  | CallKind.ImGui_ImplOpenGL2_Shutdown, [] => some (Call.ImGui_ImplOpenGL2_Shutdown)
  | CallKind.glViewport, [] => some (Call.glViewport)
  | CallKind.glClearColor, [] => some (Call.glClearColor)
  | CallKind.glClear, [] => some (Call.glClear)
  | CallKind.ImGui_ImplGlfw_CharCallback, [Arg.opt w, Arg.nat c] => some (Call.ImGui_ImplGlfw_CharCallback w c)
  | CallKind.ImGui_ImplGlfw_CursorEnterCallback, [Arg.opt w, Arg.int entered] => some (Call.ImGui_ImplGlfw_CursorEnterCallback w entered)
  | CallKind.ImGui_ImplGlfw_MouseButtonCallback, [Arg.opt w, Arg.int button, Arg.int action, Arg.int mods] => some (Call.ImGui_ImplGlfw_MouseButtonCallback w button action mods)
  | CallKind.ImGui_ImplGlfw_ScrollCallback, [Arg.opt w, Arg.double xoffset, Arg.double yoffset] => some (Call.ImGui_ImplGlfw_ScrollCallback w xoffset yoffset)
  | CallKind.ImGui_ImplGlfw_KeyCallback, [Arg.opt w, Arg.int key, Arg.int scancode, Arg.int action, Arg.int mods] => some (Call.ImGui_ImplGlfw_KeyCallback w key scancode action mods)
  | CallKind.ImGui_ImplGlfw_CursorPosCallback, [Arg.opt w, Arg.double x, Arg.double y] => some (Call.ImGui_ImplGlfw_CursorPosCallback w x y)
  | CallKind.hide, [Arg.nat inst] => some (Call.hide inst)
  | _, _ => none

/-- Two calls are equal exactly when they go to the same native function with
the same arguments. -/
instance : DecidableEq Call := fun a b =>
  have key : ∀ c : Call, Call.ofKindArgs c.kind c.args = some c := fun c => by cases c <;> rfl
  if h : a.kind = b.kind ∧ a.args = b.args then
    isTrue (Option.some.inj ((key a).symm.trans ((congrArg₂ Call.ofKindArgs h.1 h.2).trans (key b))))
  else
    isFalse (fun e => h ⟨congrArg Call.kind e, congrArg Call.args e⟩)

/-! ## State -/

/-- The state of `std::thread fDrawingThread` and of the procedure it runs. -/
inductive ThreadPhase where
  /-- No thread of execution: default constructed, or joined. -/
  | idle
  /-- Spawned; `setupImGui` has not run yet. -/
  | starting
  /-- Inside the `while` loop of `imgui_drawing_thread`. -/
  | running
  /-- `imgui_drawing_thread` has returned; the thread is not joined yet. -/
  | finished
deriving DecidableEq

/-- The value of `fDrawingThread.joinable()`. -/
def ThreadPhase.joinable : ThreadPhase → Bool
  | .idle => false
  | _ => true

/-- One `GlfwBackendExampleUI` object. `standalone`, `parent`, `width` and
`height` are what the DPF base class answers to `isStandalone()`,
`getParentWindowHandle()`, `getWidth()` and `getHeight()`. -/
structure Instance where
  standalone : Bool
  parent : Nat
  width : Nat
  height : Nat
  fWindow : Option WinId
  fMyImGuiContext : Option CtxId
  fDrawingThread : ThreadPhase
deriving DecidableEq

/-- What GLFW keeps for one window. -/
structure Window where
  width : Int
  height : Int
  shouldClose : Bool
  userPointer : Option InstId
  closeCallback : Bool
  inputCallbacks : Bool
  destroyed : Bool
deriving DecidableEq

/-- What Dear ImGui keeps for one context: `io.DisplaySize` and whether
`ImGui::DestroyContext` has been called on it. -/
structure Context where
  displayX : Int
  displayY : Int
  destroyed : Bool
deriving DecidableEq

/-- The process: the static counter, the library state, all instances, and the
current-context pointer of the main thread (`MyImGuiTLS` is thread local). -/
structure State where
  glfw_initialized_cnt : Nat
  glfwInitialized : Bool
  instances : List Instance
  windows : List Window
  contexts : List Context
  mainContext : Option CtxId
deriving DecidableEq

/-- The process at start: `glfw_initialized_cnt = 0`, nothing created. -/
def State.init : State :=
  { glfw_initialized_cnt := 0, glfwInitialized := false, instances := [],
    windows := [], contexts := [], mainContext := none }

/-- Result of a routine that always returns. -/
structure Ret where
  calls : List Call
  state : State
deriving DecidableEq

/-- Result of a routine that may block for ever: `state = none` means the routine
never returns; `calls` are the calls issued up to that point. -/
structure Blocking where
  calls : List Call
  state : Option State
deriving DecidableEq

/-- Overwrite instance `i`. -/
def State.setInstance (s : State) (i : InstId) (inst : Instance) : State :=
  { s with instances := s.instances.set i inst }

/-- Apply `f` to window `w` when `w` is a window of the table. -/
def State.updWindow (s : State) (w : Option WinId) (f : Window → Window) : State :=
  match w with
  | none => s
  | some k =>
    match s.windows[k]? with
    | none => s
    | some win => { s with windows := s.windows.set k (f win) }

/-- Apply `f` to context `c` when `c` is a live context of the table. A write
through a pointer to a destroyed context is undefined in C++; the table is left
as it is in that case. -/
def State.updContext (s : State) (c : Option CtxId) (f : Context → Context) : State :=
  match c with
  | none => s
  | some k =>
    match s.contexts[k]? with
    | none => s
    | some ctx => if ctx.destroyed then s else { s with contexts := s.contexts.set k (f ctx) }

/-- The answer of `glfwWindowShouldClose(w)`. -/
def State.windowShouldClose (s : State) (w : Option WinId) : Bool :=
  match w with
  | none => false
  | some k =>
    match s.windows[k]? with
    | none => false
    | some win => win.shouldClose

/-- Number of instances that currently hold a window: opened successfully and
not yet closed. -/
def State.openCount (s : State) : Nat :=
  s.instances.countP (fun inst => inst.fWindow.isSome)

/-! ## `PluginUI.cpp` -/

/-- The routine `GlfwBackendExampleUI::setupGLFW` (lines 64-115) on instance `i`. `initOk` is
what `glfwInit` returns if it is called, `createOk` tells whether
`glfwCreateWindow` returns a window. The first component is the returned `bool`. -/
def setupGLFW (s : State) (i : InstId) (initOk createOk : Bool) : Bool × Ret :=
  match s.instances[i]? with
  | none => (false, ⟨[], s⟩)
  | some inst =>
    -- if (!glfw_initialized_cnt++)
    let old := s.glfw_initialized_cnt
    let s1 := { s with glfw_initialized_cnt := incr32 old }
    if old = 0 ∧ initOk = false then
      (false, ⟨[Call.glfwSetErrorCallback, Call.glfwInit], s1⟩)
    else
      let c1 := if old = 0 then [Call.glfwSetErrorCallback, Call.glfwInit] else []
      let s2 := { s1 with glfwInitialized := if old = 0 then true else s1.glfwInitialized }
      -- if (!isStandalone())
      let c2 :=
        if inst.standalone then []
        else [Call.glfwWindowHint Hint.GLFW_RESIZABLE false,
              Call.glfwWindowHint Hint.GLFW_DECORATED false,
              Call.glfwWindowHint Hint.GLFW_EMBEDDED_WINDOW true,
              Call.glfwWindowHintVoid inst.parent]
      let c3 := [Call.glfwCreateWindow (toInt32 inst.width) (toInt32 inst.height)]
      if createOk = false then
        (false, ⟨c1 ++ c2 ++ c3, s2.setInstance i { inst with fWindow := none }⟩)
      else
        let w := s2.windows.length
        let win : Window :=
          { width := toInt32 inst.width, height := toInt32 inst.height, shouldClose := false,
            userPointer := some i, closeCallback := inst.standalone, inputCallbacks := false,
            destroyed := false }
        let s3 := { s2 with windows := s2.windows ++ [win] }
        let c4 := [Call.glfwSetWindowPos (some w) 0 0]
        let c5 := if inst.standalone then [Call.glfwSetWindowCloseCallback (some w)] else []
        let c6 := [Call.glfwSetWindowUserPointer (some w) i]
        (true, ⟨c1 ++ c2 ++ c3 ++ c4 ++ c5 ++ c6, s3.setInstance i { inst with fWindow := some w }⟩)

/-- The routine `GlfwBackendExampleUI::openEditor` (lines 29-37). -/
def openEditor (s : State) (i : InstId) (initOk createOk : Bool) : Ret :=
  let r := setupGLFW s i initOk createOk
  if r.1 = false then r.2
  else
    match r.2.state.instances[i]? with
    | none => r.2
    | some inst =>
      ⟨r.2.calls ++ [Call.threadStart i],
       r.2.state.setInstance i { inst with fDrawingThread := ThreadPhase.starting }⟩

/-- The constructor (lines 12-17): a new object with `fWindow(NULL)` and
`fMyImGuiContext(nullptr)`, whose base class holds the given mode and size, then
`openEditor()`. The new instance gets the next free index. -/
def construct (s : State) (standalone : Bool) (parent width height : Nat)
    (initOk createOk : Bool) : Ret :=
  let inst : Instance :=
    { standalone := standalone, parent := parent, width := width, height := height,
      fWindow := none, fMyImGuiContext := none, fDrawingThread := ThreadPhase.idle }
  openEditor { s with instances := s.instances ++ [inst] } s.instances.length initOk createOk

/-- The routine `GlfwBackendExampleUI::_setMyGLFWCallbacks` (glfw_callbacks.cpp, lines 63-97). -/
def _setMyGLFWCallbacks (s : State) (i : InstId) : Ret :=
  match s.instances[i]? with
  | none => ⟨[], s⟩
  | some inst =>
    ⟨[Call.glfwSetCharCallback inst.fWindow,
      Call.glfwSetCursorEnterCallback inst.fWindow,
      Call.glfwSetMouseButtonCallback inst.fWindow,
      Call.glfwSetScrollCallback inst.fWindow,
      Call.glfwSetKeyCallback inst.fWindow,
      Call.glfwSetCursorPosCallback inst.fWindow,
      Call.glfwSetWindowUserPointer inst.fWindow i],
     s.updWindow inst.fWindow (fun win => { win with inputCallbacks := true, userPointer := some i })⟩

/-- The routine `GlfwBackendExampleUI::setupImGui` (lines 121-207), run on the drawing thread.
`ImGui::CreateContext` returns a new context, whose `io.DisplaySize` starts at
`(-1, -1)`. -/
def setupImGui (s : State) (i : InstId) : Ret :=
  match s.instances[i]? with
  | none => ⟨[], s⟩
  | some inst =>
    let c := s.contexts.length
    let ctx : Context :=
      { displayX := toFloat inst.width, displayY := toFloat inst.height, destroyed := false }
    let s1 := { s with contexts := s.contexts ++ [ctx] }
    let s2 := s1.setInstance i { inst with fMyImGuiContext := some c }
    let r := _setMyGLFWCallbacks s2 i
    ⟨[Call.glfwMakeContextCurrent inst.fWindow,
      Call.glfwSwapInterval 1,
      Call.ImGui_CreateContext,
      Call.ImGui_SetCurrentContext (some c),
      Call.ImGui_GetIO,
      Call.ImGui_StyleColorsDark,
      Call.ImGui_ImplGlfw_InitForOpenGL inst.fWindow false,
      Call.ImGui_ImplOpenGL2_Init] ++ r.calls,
     r.state⟩

/-- The routine `GlfwBackendExampleUI::drawFrame` (lines 209-256). It writes to none of the
modelled state. -/
def drawFrame (s : State) (i : InstId) : Ret :=
  match s.instances[i]? with
  | none => ⟨[], s⟩
  | some inst =>
    match inst.fMyImGuiContext with
    | none => ⟨[], s⟩
    | some c =>
      ⟨[Call.ImGui_SetCurrentContext (some c),
        Call.ImGui_ImplOpenGL2_NewFrame,
        Call.ImGui_ImplGlfw_NewFrame,
        Call.ImGui_NewFrame,
        Call.ImGui_ShowDemoWindow,
        Call.ImGui_Render,
        Call.glfwGetFramebufferSize inst.fWindow,
        Call.glViewport,
        Call.glClearColor,
        Call.glClear,
        Call.ImGui_ImplOpenGL2_RenderDrawData,
        Call.glfwMakeContextCurrent inst.fWindow,
        Call.glfwSwapBuffers inst.fWindow], s⟩

/-- The end of `imgui_drawing_thread` after its loop (lines 353-362). -/
def drawingThreadCleanup (s : State) (i : InstId) : Ret :=
  match s.instances[i]? with
  | none => ⟨[], s⟩
  | some inst =>
    ⟨[Call.ImGui_SetCurrentContext inst.fMyImGuiContext,
      Call.ImGui_ImplOpenGL2_Shutdown,
      Call.ImGui_ImplGlfw_Shutdown,
      Call.ImGui_DestroyContext inst.fMyImGuiContext],
     s.updContext inst.fMyImGuiContext (fun ctx => { ctx with destroyed := true })⟩

/-- One scheduling step of the drawing thread of instance `i`, which runs
`imgui_drawing_thread` (lines 343-363): `setupImGui` when the thread has just
been spawned; otherwise one evaluation of the loop condition followed by either
one `drawFrame` or the code after the loop. -/
def threadStep (s : State) (i : InstId) : Ret :=
  match s.instances[i]? with
  | none => ⟨[], s⟩
  | some inst =>
    match inst.fDrawingThread with
    | ThreadPhase.idle => ⟨[], s⟩
    | ThreadPhase.finished => ⟨[], s⟩
    | ThreadPhase.starting =>
      let r := setupImGui s i
      match r.state.instances[i]? with
      | none => r
      | some inst1 => ⟨r.calls, r.state.setInstance i { inst1 with fDrawingThread := ThreadPhase.running }⟩
    | ThreadPhase.running =>
      if s.windowShouldClose inst.fWindow then
        let r := drawingThreadCleanup s i
        ⟨Call.glfwWindowShouldClose inst.fWindow :: r.calls,
         r.state.setInstance i { inst with fDrawingThread := ThreadPhase.finished }⟩
      else
        let r := drawFrame s i
        ⟨Call.glfwWindowShouldClose inst.fWindow :: r.calls, r.state⟩

/-- The loop of `imgui_drawing_thread` and the code after it (lines 349-362).
The close-requested flag is written by the main thread while the loop runs:
`flags` holds what `glfwWindowShouldClose` answers at the start of the
successive iterations. When the answers are used up the loop is still running:
no state is returned. -/
def drawLoop (s : State) (i : InstId) : List Bool → Blocking
  | [] => ⟨[], none⟩
  | true :: _ =>
    match s.instances[i]? with
    | none => ⟨[], some s⟩
    | some inst =>
      let r := drawingThreadCleanup s i
      ⟨Call.glfwWindowShouldClose inst.fWindow :: r.calls, some r.state⟩
  | false :: flags =>
    match s.instances[i]? with
    | none => ⟨[], some s⟩
    | some inst =>
      let r := drawFrame s i
      let l := drawLoop r.state i flags
      ⟨Call.glfwWindowShouldClose inst.fWindow :: (r.calls ++ l.calls), l.state⟩

/-- The procedure `imgui_drawing_thread` (lines 343-363) run in one piece, with
the answers of `glfwWindowShouldClose` as in `drawLoop`. -/
def imgui_drawing_thread (s : State) (i : InstId) (flags : List Bool) : Blocking :=
  let r := setupImGui s i
  let l := drawLoop r.state i flags
  ⟨r.calls ++ l.calls, l.state⟩

/-- The state in which `fDrawingThread.join()` returns: the drawing thread has run
to the end of `imgui_drawing_thread` and the thread object is no longer joinable.
While the main thread waits nothing sets the close-requested flag, and a frame
leaves it as it is, so a thread whose loop condition holds never ends: `none`. -/
def join (s : State) (i : InstId) : Option State :=
  match s.instances[i]? with
  | none => some s
  | some inst =>
    match inst.fDrawingThread with
    | ThreadPhase.idle => some s
    | ThreadPhase.finished => some (s.setInstance i { inst with fDrawingThread := ThreadPhase.idle })
    | ThreadPhase.starting =>
      if s.windowShouldClose inst.fWindow then
        let s1 := (threadStep (threadStep s i).state i).state
        match s1.instances[i]? with
        | none => some s1
        | some inst1 => some (s1.setInstance i { inst1 with fDrawingThread := ThreadPhase.idle })
      else none
    | ThreadPhase.running =>
      if s.windowShouldClose inst.fWindow then
        let s1 := (threadStep s i).state
        match s1.instances[i]? with
        | none => some s1
        | some inst1 => some (s1.setInstance i { inst1 with fDrawingThread := ThreadPhase.idle })
      else none

/-- Lines 47-60 of `closeEditor`: the clean-up after the join. -/
def closeEditorCleanup (s : State) (i : InstId) : Ret :=
  match s.instances[i]? with
  | none => ⟨[], s⟩
  | some inst =>
    match inst.fMyImGuiContext with
    | none => ⟨[], s⟩
    | some _ =>
      -- if (!--glfw_initialized_cnt)
      let cnt := decr32 s.glfw_initialized_cnt
      let s1 := s.updWindow inst.fWindow (fun win => { win with destroyed := true })
      let s2 := { s1 with glfw_initialized_cnt := cnt,
                          glfwInitialized := if cnt = 0 then false else s1.glfwInitialized }
      ⟨Call.glfwDestroyWindow inst.fWindow :: (if cnt = 0 then [Call.glfwTerminate] else []),
       s2.setInstance i { inst with fMyImGuiContext := none, fWindow := none }⟩

/-- The routine `GlfwBackendExampleUI::closeEditor` (lines 39-61). -/
def closeEditor (s : State) (i : InstId) : Blocking :=
  match s.instances[i]? with
  | none => ⟨[], some s⟩
  | some inst =>
    -- DISTRHO_SAFE_ASSERT_RETURN(fWindow != NULL, )
    match inst.fWindow with
    | none => ⟨[], some s⟩
    | some _ =>
      if inst.fDrawingThread.joinable then
        match join s i with
        | none => ⟨[Call.threadJoin i], none⟩
        | some s1 =>
          let r := closeEditorCleanup s1 i
          ⟨Call.threadJoin i :: r.calls, some r.state⟩
      else
        let r := closeEditorCleanup s i
        ⟨r.calls, some r.state⟩

/-- The destructor `~GlfwBackendExampleUI` (lines 19-27). -/
def destructor (s : State) (i : InstId) : Blocking :=
  match s.instances[i]? with
  | none => ⟨[], some s⟩
  | some inst =>
    match inst.fWindow with
    | none => closeEditor s i
    | some w =>
      let s1 := s.updWindow (some w) (fun win => { win with shouldClose := true })
      let r := closeEditor s1 i
      ⟨Call.glfwSetWindowShouldClose (some w) true :: r.calls, r.state⟩

/-- The routine `GlfwBackendExampleUI::uiIdle` (lines 278-296). -/
def uiIdle (s : State) (i : InstId) : Ret :=
  match s.instances[i]? with
  | none => ⟨[], s⟩
  | some inst =>
    -- DISTRHO_SAFE_ASSERT_RETURN(fWindow != NULL && fMyImGuiContext != nullptr, )
    if inst.fWindow.isSome ∧ inst.fMyImGuiContext.isSome then
      if s.windowShouldClose inst.fWindow then
        ⟨[Call.glfwWindowShouldClose inst.fWindow], s⟩
      else
        ⟨[Call.glfwWindowShouldClose inst.fWindow, Call.glfwPollEvents], s⟩
    else ⟨[], s⟩

/-- The routine `GlfwBackendExampleUI::sizeChanged` (lines 304-317). -/
def sizeChanged (s : State) (i : InstId) (width height : Nat) : Ret :=
  match s.instances[i]? with
  | none => ⟨[], s⟩
  | some inst =>
    -- DISTRHO_SAFE_ASSERT_RETURN(fWindow != NULL && fMyImGuiContext != nullptr, )
    if inst.fWindow.isSome ∧ inst.fMyImGuiContext.isSome then
      let s1 := s.updWindow inst.fWindow
        (fun win => { win with width := toInt32 width, height := toInt32 height })
      let s2 := { s1 with mainContext := inst.fMyImGuiContext }
      let s3 := s2.updContext inst.fMyImGuiContext
        (fun ctx => { ctx with displayX := toFloat inst.width, displayY := toFloat inst.height })
      ⟨[Call.glfwSetWindowSize inst.fWindow (toInt32 width) (toInt32 height),
        Call.ImGui_SetCurrentContext inst.fMyImGuiContext,
        Call.ImGui_GetIO], s3⟩
    else ⟨[], s⟩

/-! ## `glfw_callbacks.cpp` -/

/-- The forwarding call of each member callback (lines 103-138). -/
def forward (w : Option WinId) : InputEvent → Call
  | InputEvent.char c => Call.ImGui_ImplGlfw_CharCallback w c
  | InputEvent.cursorEnter entered => Call.ImGui_ImplGlfw_CursorEnterCallback w entered
  | InputEvent.mouseButton button action mods => Call.ImGui_ImplGlfw_MouseButtonCallback w button action mods
  | InputEvent.scroll xoffset yoffset => Call.ImGui_ImplGlfw_ScrollCallback w xoffset yoffset
  | InputEvent.key key scancode action mods => Call.ImGui_ImplGlfw_KeyCallback w key scancode action mods
  | InputEvent.cursorPos x y => Call.ImGui_ImplGlfw_CursorPosCallback w x y

/-- The member callbacks `_charCallback` .. `_cursorPosCallback` (lines 103-138),
which share one shape. They run on the main thread. -/
def memberCallback (s : State) (i : InstId) (ev : InputEvent) : Ret :=
  match s.instances[i]? with
  | none => ⟨[], s⟩
  | some inst =>
    ⟨[Call.ImGui_SetCurrentContext inst.fMyImGuiContext, forward inst.fWindow ev],
     { s with mainContext := inst.fMyImGuiContext }⟩

/-- The native callbacks that `_setMyGLFWCallbacks` installs (the lambdas of lines
66-83): GLFW calls them with the window that received the event. Nothing is
called for a window that has no callbacks installed or is destroyed. -/
def nativeCallback (s : State) (w : WinId) (ev : InputEvent) : Ret :=
  match s.windows[w]? with
  | none => ⟨[], s⟩
  | some win =>
    if win.inputCallbacks = true ∧ win.destroyed = false then
      match win.userPointer with
      | none => ⟨[], s⟩
      | some i =>
        let r := memberCallback s i ev
        ⟨Call.glfwGetWindowUserPointer w :: r.calls, r.state⟩
    else ⟨[], s⟩

/-- The routine `glfw_window_close_callback` (lines 374-381), called by GLFW with
the window the user asked to close. `hide()` belongs to the DPF base class; it
ends in `visibilityChanged`, which this class leaves empty (lines 324-327). -/
def glfw_window_close_callback (s : State) (w : WinId) : Ret :=
  match s.windows[w]? with
  | none => ⟨[], s⟩
  | some win =>
    match win.userPointer with
    | none => ⟨[], s⟩
    | some i => ⟨[Call.glfwGetWindowUserPointer w, Call.hide i], s⟩

/-- The user asks window `w` to close: GLFW sets the close-requested flag and
then calls the window-close callback if one is installed;
`glfw_window_close_callback` (lines 374-381) calls `hide()` on the instance
stored as the user pointer. -/
def closeRequest (s : State) (w : WinId) : Ret :=
  match s.windows[w]? with
  | none => ⟨[], s⟩
  | some win =>
    if win.destroyed then ⟨[], s⟩
    else
      let s1 := s.updWindow (some w) (fun x => { x with shouldClose := true })
      if win.closeCallback then
        match win.userPointer with
        | none => ⟨[], s1⟩
        | some i => ⟨[Call.glfwGetWindowUserPointer w, Call.hide i], s1⟩
      else ⟨[], s1⟩

/-! ## Runs of the process -/

/-- What the host, the scheduler and the user can do to the process. -/
inductive Op where
  /-- The host creates a UI: `new GlfwBackendExampleUI()`. -/
  | create (standalone : Bool) (parent width height : Nat) (initOk createOk : Bool)
  | closeEditor (i : InstId)
  /-- The host deletes the UI: the destructor runs. -/
  | destroy (i : InstId)
  | uiIdle (i : InstId)
  | sizeChanged (i : InstId) (width height : Nat)
  /-- The scheduler lets the drawing thread of instance `i` run one step. -/
  | threadStep (i : InstId)
  /-- GLFW delivers an input event to window `w`. -/
  | input (w : WinId) (ev : InputEvent)
  /-- The user asks window `w` to close. -/
  | closeRequest (w : WinId)
deriving DecidableEq

/-- Lift a routine that always returns. -/
def Ret.toBlocking (r : Ret) : Blocking := ⟨r.calls, some r.state⟩

/-- One operation. -/
def step (s : State) : Op → Blocking
  | Op.create standalone parent width height initOk createOk =>
    (construct s standalone parent width height initOk createOk).toBlocking
  | Op.closeEditor i => closeEditor s i
  | Op.destroy i => destructor s i
  | Op.uiIdle i => (uiIdle s i).toBlocking
  | Op.sizeChanged i width height => (sizeChanged s i width height).toBlocking
  | Op.threadStep i => (threadStep s i).toBlocking
  | Op.input w ev => (nativeCallback s w ev).toBlocking
  | Op.closeRequest w => (closeRequest s w).toBlocking

/-- Run operations one after the other; `none` when one of them never returns. -/
def exec : List Op → State → Option State
  | [], s => some s
  | op :: ops, s =>
    match (step s op).state with
    | none => none
    | some s1 => exec ops s1

/-- States the process can be in: reached from the initial state by operations
that all returned. -/
def Reachable (s : State) : Prop := ∃ ops : List Op, exec ops State.init = some s

/-- Number of UI constructions in a run. -/
def opens : List Op → Nat
  | [] => 0
  | Op.create _ _ _ _ _ _ :: ops => opens ops + 1
  | _ :: ops => opens ops

/-! ## Predicates and sample states used by the theorems -/

/-- Shape of one instance in a reachable state: the thread is joinable exactly
when the instance holds a window, the context pointer is set exactly when
`setupImGui` has run, and the window is one of the window table of size `n`. -/
def Instance.wf (inst : Instance) (n : Nat) : Prop :=
  (inst.fDrawingThread = ThreadPhase.idle → inst.fWindow = none ∧ inst.fMyImGuiContext = none) ∧
  (inst.fDrawingThread = ThreadPhase.starting → inst.fWindow ≠ none ∧ inst.fMyImGuiContext = none) ∧
  (inst.fDrawingThread = ThreadPhase.running → inst.fWindow ≠ none ∧ inst.fMyImGuiContext ≠ none) ∧
  (inst.fDrawingThread = ThreadPhase.finished → inst.fWindow ≠ none ∧ inst.fMyImGuiContext ≠ none) ∧
  (∀ w, inst.fWindow = some w → w < n)

/-- Every instance of the state is well formed. -/
def WF (s : State) : Prop := ∀ inst ∈ s.instances, inst.wf s.windows.length

/-- The object the constructor starts from, before `openEditor`. -/
def newInstance (standalone : Bool) (parent width height : Nat) : Instance :=
  { standalone := standalone, parent := parent, width := width, height := height,
    fWindow := none, fMyImGuiContext := none, fDrawingThread := ThreadPhase.idle }

/-- The open has failed: `glfwInit` was called and returned false, or
`glfwCreateWindow` returned `NULL`. -/
def openFails (s : State) (initOk createOk : Bool) : Prop :=
  (s.glfw_initialized_cnt = 0 ∧ initOk = false) ∨ createOk = false

instance (s : State) (initOk createOk : Bool) : Decidable (openFails s initOk createOk) := by
  unfold openFails; infer_instance

/-- The counter covers the open instances and is bounded by the number `n` of
constructions so far. -/
def Counted (s : State) (n : Nat) : Prop :=
  s.openCount ≤ s.glfw_initialized_cnt ∧ s.glfw_initialized_cnt ≤ n

/-- A standalone 640x480 UI whose `glfwInit` and `glfwCreateWindow` succeed. -/
def openOk : Op := Op.create true 0 640 480 true true

/-- A run for the examples: A and B are opened, both windows are asked to close. -/
def demoOps : List Op := [openOk, openOk, Op.closeRequest 0, Op.closeRequest 1]

/-- The state after the run `demoOps`. -/
def demoState : State := (exec demoOps State.init).getD State.init

/-- The state after `closeEditor` on A in `demoState`. -/
def demoClosed : State := ((closeEditor demoState 0).state).getD State.init

/-- The state after A alone is opened and asked to close. -/
def loneState : State := (exec [openOk, Op.closeRequest 0] State.init).getD State.init

/-- The state after `closeEditor` on A in `loneState`. -/
def loneClosed : State := ((closeEditor loneState 0).state).getD State.init

/-- The state in which A is open and drawing, nobody having asked it to close. -/
def drawingState : State := (exec [openOk, Op.threadStep 0] State.init).getD State.init

/-- The state after B is opened next to a failed A and is drawing. -/
def afterFailure : State :=
  (exec [openOk, Op.threadStep 1]
    (construct State.init true 0 640 480 false true).state).getD State.init

/-- The state in which A and B are open and both drawing threads have run
`setupImGui`. -/
def bothDrawing : State :=
  (exec [openOk, openOk, Op.threadStep 0, Op.threadStep 1] State.init).getD State.init

/-- The state in which a 1024x768 instance is open and drawing. -/
def bigOpen : State :=
  (exec [Op.create true 0 1024 768 true true, Op.threadStep 0] State.init).getD State.init

/-- The calls with which `drawFrame` builds, renders and shows a frame. -/
def Call.isDrawing : Call → Bool
  | Call.ImGui_ImplOpenGL2_NewFrame => true
  | Call.ImGui_ImplGlfw_NewFrame => true
  | Call.ImGui_NewFrame => true
  | Call.ImGui_ShowDemoWindow => true
  | Call.ImGui_Render => true
  | Call.glfwGetFramebufferSize _ => true
  | Call.glViewport => true
  | Call.glClearColor => true
  | Call.glClear => true
  | Call.ImGui_ImplOpenGL2_RenderDrawData => true
  | Call.glfwMakeContextCurrent _ => true
  | Call.glfwSwapBuffers _ => true
  | _ => false

/-- The calls of one frame drawn for window `w` with context `c` (lines 217-254). -/
def frameCalls (w : Option WinId) (c : CtxId) : List Call :=
  [Call.ImGui_SetCurrentContext (some c),
   Call.ImGui_ImplOpenGL2_NewFrame,
   Call.ImGui_ImplGlfw_NewFrame,
   Call.ImGui_NewFrame,
   Call.ImGui_ShowDemoWindow,
   Call.ImGui_Render,
   Call.glfwGetFramebufferSize w,
   Call.glViewport,
   Call.glClearColor,
   Call.glClear,
   Call.ImGui_ImplOpenGL2_RenderDrawData,
   Call.glfwMakeContextCurrent w,
   Call.glfwSwapBuffers w]

/-- The state in which an 800x600 instance embedded under parent 4242 has been
opened from the initial state. -/
def embeddedOpen : State := (construct State.init false 4242 800 600 true true).state

/-- The state in which the 800x600 instance of `embeddedOpen` has just been
constructed and `openEditor` has not run yet. -/
def embeddedFresh : State :=
  { State.init with instances := [newInstance false 4242 800 600] }

/-- The calls of `setupImGui` for window `w`, instance `i` and new context `c`
(lines 136-202, with `_setMyGLFWCallbacks`). -/
def setupCalls (w : Option WinId) (c : CtxId) (i : InstId) : List Call :=
  [Call.glfwMakeContextCurrent w,
   Call.glfwSwapInterval 1,
   Call.ImGui_CreateContext,
   Call.ImGui_SetCurrentContext (some c),
   Call.ImGui_GetIO,
   Call.ImGui_StyleColorsDark,
   Call.ImGui_ImplGlfw_InitForOpenGL w false,
   Call.ImGui_ImplOpenGL2_Init,
   Call.glfwSetCharCallback w,
   Call.glfwSetCursorEnterCallback w,
   Call.glfwSetMouseButtonCallback w,
   Call.glfwSetScrollCallback w,
   Call.glfwSetKeyCallback w,
   Call.glfwSetCursorPosCallback w,
   Call.glfwSetWindowUserPointer w i]

/-- The calls of `n` loop iterations that each find the flag false: the test of
the loop condition, then one frame. -/
def loopCalls (w : Option WinId) (c : CtxId) : Nat → List Call
  | 0 => []
  | n + 1 => Call.glfwWindowShouldClose w :: (frameCalls w c ++ loopCalls w c n)

/-- The calls of the iteration that finds the flag true and of the code after
the loop (lines 349-360). -/
def exitCalls (w : Option WinId) (c : CtxId) : List Call :=
  [Call.glfwWindowShouldClose w,
   Call.ImGui_SetCurrentContext (some c),
   Call.ImGui_ImplOpenGL2_Shutdown,
   Call.ImGui_ImplGlfw_Shutdown,
   Call.ImGui_DestroyContext (some c)]

/-! ## Theorems -/

@[simp] theorem setInstance_instances (s : State) (i : InstId) (inst : Instance) :
    (s.setInstance i inst).instances = s.instances.set i inst := rfl

@[simp] theorem setInstance_windows (s : State) (i : InstId) (inst : Instance) :
    (s.setInstance i inst).windows = s.windows := rfl

@[simp] theorem setInstance_contexts (s : State) (i : InstId) (inst : Instance) :
    (s.setInstance i inst).contexts = s.contexts := rfl

@[simp] theorem setInstance_cnt (s : State) (i : InstId) (inst : Instance) :
    (s.setInstance i inst).glfw_initialized_cnt = s.glfw_initialized_cnt := rfl

@[simp] theorem setInstance_mainContext (s : State) (i : InstId) (inst : Instance) :
    (s.setInstance i inst).mainContext = s.mainContext := rfl

@[simp] theorem setInstance_glfwInitialized (s : State) (i : InstId) (inst : Instance) :
    (s.setInstance i inst).glfwInitialized = s.glfwInitialized := rfl

@[simp] theorem updWindow_instances (s : State) (w : Option WinId) (f : Window → Window) :
    (s.updWindow w f).instances = s.instances := by
  unfold State.updWindow; split
  · rfl
  · split <;> rfl

@[simp] theorem updWindow_cnt (s : State) (w : Option WinId) (f : Window → Window) :
    (s.updWindow w f).glfw_initialized_cnt = s.glfw_initialized_cnt := by
  unfold State.updWindow; split
  · rfl
  · split <;> rfl

@[simp] theorem updWindow_glfwInitialized (s : State) (w : Option WinId) (f : Window → Window) :
    (s.updWindow w f).glfwInitialized = s.glfwInitialized := by
  unfold State.updWindow; split
  · rfl
  · split <;> rfl

@[simp] theorem updWindow_contexts (s : State) (w : Option WinId) (f : Window → Window) :
    (s.updWindow w f).contexts = s.contexts := by
  unfold State.updWindow; split
  · rfl
  · split <;> rfl

@[simp] theorem updWindow_mainContext (s : State) (w : Option WinId) (f : Window → Window) :
    (s.updWindow w f).mainContext = s.mainContext := by
  unfold State.updWindow; split
  · rfl
  · split <;> rfl

@[simp] theorem updWindow_length (s : State) (w : Option WinId) (f : Window → Window) :
    (s.updWindow w f).windows.length = s.windows.length := by
  unfold State.updWindow; split
  · rfl
  · split <;> simp

@[simp] theorem updContext_instances (s : State) (c : Option CtxId) (f : Context → Context) :
    (s.updContext c f).instances = s.instances := by
  unfold State.updContext; split
  · rfl
  · split
    · rfl
    · split <;> rfl

@[simp] theorem updContext_windows (s : State) (c : Option CtxId) (f : Context → Context) :
    (s.updContext c f).windows = s.windows := by
  unfold State.updContext; split
  · rfl
  · split
    · rfl
    · split <;> rfl

@[simp] theorem updContext_cnt (s : State) (c : Option CtxId) (f : Context → Context) :
    (s.updContext c f).glfw_initialized_cnt = s.glfw_initialized_cnt := by
  unfold State.updContext; split
  · rfl
  · split
    · rfl
    · split <;> rfl

@[simp] theorem updContext_glfwInitialized (s : State) (c : Option CtxId) (f : Context → Context) :
    (s.updContext c f).glfwInitialized = s.glfwInitialized := by
  unfold State.updContext; split
  · rfl
  · split
    · rfl
    · split <;> rfl

@[simp] theorem updContext_mainContext (s : State) (c : Option CtxId) (f : Context → Context) :
    (s.updContext c f).mainContext = s.mainContext := by
  unfold State.updContext; split
  · rfl
  · split
    · rfl
    · split <;> rfl

/-- The flag read by `glfwWindowShouldClose` depends on the window table only. -/
theorem windowShouldClose_congr (s t : State) (w : Option WinId) (h : s.windows = t.windows) :
    s.windowShouldClose w = t.windowShouldClose w := by
  unfold State.windowShouldClose; rw [h]

theorem Instance.wf_mono {inst : Instance} {n m : Nat} (h : inst.wf n) (hnm : n ≤ m) : inst.wf m :=
  ⟨h.1, h.2.1, h.2.2.1, h.2.2.2.1, fun w hw => lt_of_lt_of_le (h.2.2.2.2 w hw) hnm⟩

theorem WF_of_set {s t : State} {i : InstId} {inst : Instance} (h : WF s)
    (hi : t.instances = s.instances.set i inst) (hn : s.windows.length ≤ t.windows.length)
    (hw : inst.wf t.windows.length) : WF t := by
  intro x hx
  rw [hi] at hx
  rcases List.mem_or_eq_of_mem_set hx with hx | hx
  · exact Instance.wf_mono (h x hx) hn
  · exact hx ▸ hw

theorem WF_of_same {s t : State} (h : WF s)
    (hi : t.instances = s.instances) (hn : s.windows.length ≤ t.windows.length) : WF t := by
  intro x hx
  rw [hi] at hx
  exact Instance.wf_mono (h x hx) hn

theorem drawFrame_state (s : State) (i : InstId) : (drawFrame s i).state = s := by
  unfold drawFrame
  split
  · rfl
  · split <;> rfl

theorem uiIdle_state (s : State) (i : InstId) : (uiIdle s i).state = s := by
  unfold uiIdle
  split
  · rfl
  · split
    · split <;> rfl
    · rfl

theorem setMyGLFWCallbacks_state (s : State) (i : InstId) (inst : Instance)
    (h : s.instances[i]? = some inst) :
    (_setMyGLFWCallbacks s i).state =
      s.updWindow inst.fWindow (fun win => { win with inputCallbacks := true, userPointer := some i }) := by
  unfold _setMyGLFWCallbacks; rw [h]

theorem lt_of_getElem? {α : Type} {l : List α} {i : Nat} {a : α} (h : l[i]? = some a) : i < l.length := by
  rcases List.getElem?_eq_some.1 h with ⟨hlt, _⟩
  exact hlt

theorem setupImGui_state (s : State) (i : InstId) (inst : Instance)
    (h : s.instances[i]? = some inst) :
    (setupImGui s i).state =
      (({ s with contexts := s.contexts ++ [{ displayX := toFloat inst.width, displayY := toFloat inst.height, destroyed := false }] } : State).setInstance i
          { inst with fMyImGuiContext := some s.contexts.length }).updWindow inst.fWindow
        (fun win => { win with inputCallbacks := true, userPointer := some i }) := by
  have hlt := lt_of_getElem? h
  unfold setupImGui; rw [h]
  simp only []
  rw [setMyGLFWCallbacks_state _ _ { inst with fMyImGuiContext := some s.contexts.length }]
  simp [State.setInstance, hlt]

theorem drawingThreadCleanup_instances (s : State) (i : InstId) :
    (drawingThreadCleanup s i).state.instances = s.instances := by
  unfold drawingThreadCleanup; split <;> simp

theorem drawingThreadCleanup_windows (s : State) (i : InstId) :
    (drawingThreadCleanup s i).state.windows = s.windows := by
  unfold drawingThreadCleanup; split <;> simp

theorem drawingThreadCleanup_cnt (s : State) (i : InstId) :
    (drawingThreadCleanup s i).state.glfw_initialized_cnt = s.glfw_initialized_cnt := by
  unfold drawingThreadCleanup; split <;> simp

/-- What a scheduler step does to the instance table, the size of the window
table and the counter. -/
theorem threadStep_effect (s : State) (i : InstId) :
    (threadStep s i).state.windows.length = s.windows.length ∧
    (threadStep s i).state.glfw_initialized_cnt = s.glfw_initialized_cnt ∧
    ((threadStep s i).state.instances = s.instances ∨
     ∃ inst, s.instances[i]? = some inst ∧
       ((inst.fDrawingThread = ThreadPhase.starting ∧
         (threadStep s i).state.instances = s.instances.set i
           { inst with fMyImGuiContext := some s.contexts.length,
                       fDrawingThread := ThreadPhase.running }) ∨
        (inst.fDrawingThread = ThreadPhase.running ∧
         (threadStep s i).state.instances = s.instances.set i
           { inst with fDrawingThread := ThreadPhase.finished }))) := by
  unfold threadStep
  cases h : s.instances[i]? with
  | none => simp
  | some inst =>
    have hlt := lt_of_getElem? h
    cases hp : inst.fDrawingThread with
    | idle => simp [hp]
    | finished => simp [hp]
    | starting =>
      simp only [hp, setupImGui_state s i inst h]
      simp [hlt, hp]
    | running =>
      simp only [hp]
      split
      · simp [drawingThreadCleanup_instances, drawingThreadCleanup_windows,
          drawingThreadCleanup_cnt, hp]
      · simp [drawFrame_state]

theorem threadStep_WF (s : State) (i : InstId) (h : WF s) : WF (threadStep s i).state := by
  obtain ⟨hlen, -, hinst⟩ := threadStep_effect s i
  rcases hinst with hsame | ⟨inst, hget, ⟨hp, hset⟩ | ⟨hp, hset⟩⟩
  · exact WF_of_same h hsame (le_of_eq hlen.symm)
  · have hw := h inst (List.getElem?_mem hget)
    refine WF_of_set h hset (le_of_eq hlen.symm) ?_
    rw [hlen]
    have h2 := (hw.2.1 hp)
    exact ⟨by simp, by simp, by simp [h2.1], by simp, hw.2.2.2.2⟩
  · have hw := h inst (List.getElem?_mem hget)
    refine WF_of_set h hset (le_of_eq hlen.symm) ?_
    rw [hlen]
    have h2 := (hw.2.2.1 hp)
    exact ⟨by simp, by simp, by simp, by simp [h2.1, h2.2], hw.2.2.2.2⟩

theorem windowShouldClose_updWindow (s : State) (w v : Option WinId) (f : Window → Window)
    (hf : ∀ x, (f x).shouldClose = x.shouldClose) :
    (s.updWindow w f).windowShouldClose v = s.windowShouldClose v := by
  unfold State.updWindow
  cases w with
  | none => rfl
  | some k =>
    simp only []
    cases hk : s.windows[k]? with
    | none => rfl
    | some win =>
      simp only []
      unfold State.windowShouldClose
      cases v with
      | none => rfl
      | some j =>
        simp only [List.getElem?_set]
        by_cases hkj : k = j
        · subst hkj
          have hlt := lt_of_getElem? hk
          simp [hlt, hk, hf]
        · simp [hkj]

theorem setupImGui_windowShouldClose (s : State) (i : InstId) (v : Option WinId) :
    (setupImGui s i).state.windowShouldClose v = s.windowShouldClose v := by
  cases h : s.instances[i]? with
  | none => unfold setupImGui; rw [h]
  | some inst =>
    rw [setupImGui_state s i inst h]
    refine (windowShouldClose_updWindow _ _ _ _ ?_).trans ?_
    · intro x; rfl
    · rfl

theorem threadStep_starting (s : State) (i : InstId) (inst : Instance)
    (h : s.instances[i]? = some inst) (hp : inst.fDrawingThread = ThreadPhase.starting) :
    (threadStep s i).state = (setupImGui s i).state.setInstance i
      { inst with fMyImGuiContext := some s.contexts.length, fDrawingThread := ThreadPhase.running } := by
  have hlt := lt_of_getElem? h
  unfold threadStep
  simp only [h, hp]
  simp only [setupImGui_state s i inst h]
  simp [hlt]

theorem threadStep_running_close (s : State) (i : InstId) (inst : Instance)
    (h : s.instances[i]? = some inst) (hp : inst.fDrawingThread = ThreadPhase.running)
    (hc : s.windowShouldClose inst.fWindow = true) :
    (threadStep s i).state = (drawingThreadCleanup s i).state.setInstance i
      { inst with fDrawingThread := ThreadPhase.finished } := by
  unfold threadStep
  simp only [h, hp, hc, if_true]

theorem threadStep_running_draw (s : State) (i : InstId) (inst : Instance)
    (h : s.instances[i]? = some inst) (hp : inst.fDrawingThread = ThreadPhase.running)
    (hc : s.windowShouldClose inst.fWindow = false) :
    (threadStep s i).state = s := by
  unfold threadStep
  simp [h, hp, hc, drawFrame_state]

theorem threadStep_windowShouldClose (s : State) (i : InstId) (v : Option WinId) :
    (threadStep s i).state.windowShouldClose v = s.windowShouldClose v := by
  unfold threadStep
  cases h : s.instances[i]? with
  | none => rfl
  | some inst =>
    cases hp : inst.fDrawingThread with
    | idle => simp [hp]
    | finished => simp [hp]
    | starting =>
      simp only [hp]
      split
      · exact setupImGui_windowShouldClose s i v
      · rw [← setupImGui_windowShouldClose s i v]
        exact windowShouldClose_congr _ _ _ rfl
    | running =>
      simp only [hp]
      split
      · exact windowShouldClose_congr _ _ _ (by simp [drawingThreadCleanup_windows])
      · simp [drawFrame_state]

/-- What `join` leaves behind when it returns on a joinable thread of a
well-formed instance: the thread object is idle, the context pointer is set, the
window pointer, the counter and the size of the window table are as before. -/
theorem join_effect (s s1 : State) (i : InstId) (inst : Instance) (n : Nat)
    (h : s.instances[i]? = some inst) (hw : inst.wf n)
    (hj : inst.fDrawingThread ≠ ThreadPhase.idle) (hs : join s i = some s1) :
    s1.windows.length = s.windows.length ∧
    s1.glfw_initialized_cnt = s.glfw_initialized_cnt ∧
    (∀ v, s1.windowShouldClose v = s.windowShouldClose v) ∧
    (inst.fDrawingThread = ThreadPhase.finished ∨ s.windowShouldClose inst.fWindow = true) ∧
    ∃ c, s1.instances = s.instances.set i
      { inst with fMyImGuiContext := some c, fDrawingThread := ThreadPhase.idle } := by
  have hlt := lt_of_getElem? h
  unfold join at hs
  simp only [h] at hs
  cases hp : inst.fDrawingThread with
  | idle => exact absurd hp hj
  | finished =>
    simp only [hp] at hs
    injection hs with hs
    subst hs
    obtain ⟨-, hc⟩ := hw.2.2.2.1 hp
    obtain ⟨c, hc⟩ := Option.ne_none_iff_exists.1 hc
    refine ⟨rfl, rfl, fun v => windowShouldClose_congr _ _ _ rfl, Or.inl rfl, c, ?_⟩
    simp [← hc]
  | running =>
    simp only [hp] at hs
    split at hs
    · rename_i hflag
      rw [threadStep_running_close s i inst h hp hflag] at hs
      simp [hlt, drawingThreadCleanup_instances] at hs
      subst hs
      obtain ⟨-, hc⟩ := hw.2.2.1 hp
      obtain ⟨c, hc⟩ := Option.ne_none_iff_exists.1 hc
      refine ⟨by simp [drawingThreadCleanup_windows], by simp [drawingThreadCleanup_cnt],
        fun v => windowShouldClose_congr _ _ _ (by simp [drawingThreadCleanup_windows]),
        Or.inr hflag, c, ?_⟩
      simp [← hc, drawingThreadCleanup_instances]
    · exact absurd hs (by simp)
  | starting =>
    simp only [hp] at hs
    split at hs
    · rename_i hflag
      have e1 := threadStep_starting s i inst h hp
      have hget1 : (threadStep s i).state.instances[i]? = some
          { inst with fMyImGuiContext := some s.contexts.length, fDrawingThread := ThreadPhase.running } := by
        rw [e1]; simp [setupImGui_state s i inst h, hlt]
      have hflag1 : (threadStep s i).state.windowShouldClose inst.fWindow = true := by
        rw [threadStep_windowShouldClose]; exact hflag
      have e2 := threadStep_running_close (threadStep s i).state i _ hget1 rfl hflag1
      rw [e2] at hs
      have hlt1 := lt_of_getElem? hget1
      simp [hlt1, drawingThreadCleanup_instances] at hs
      subst hs
      refine ⟨?_, ?_, ?_, Or.inr hflag, s.contexts.length, ?_⟩
      · simp [drawingThreadCleanup_windows, (threadStep_effect s i).1]
      · simp [drawingThreadCleanup_cnt, (threadStep_effect s i).2.1]
      · intro v
        rw [← threadStep_windowShouldClose s i v]
        exact windowShouldClose_congr _ _ _ (by simp [drawingThreadCleanup_windows])
      · simp [drawingThreadCleanup_instances, e1, setupImGui_state s i inst h]
    · exact absurd hs (by simp)

/-- The join returns when the thread has finished or the flag is set. -/
theorem join_isSome (s : State) (i : InstId) (inst : Instance)
    (h : s.instances[i]? = some inst)
    (hc : inst.fDrawingThread = ThreadPhase.finished ∨ s.windowShouldClose inst.fWindow = true) :
    ∃ s1, join s i = some s1 := by
  unfold join
  simp only [h]
  cases hp : inst.fDrawingThread with
  | idle => exact ⟨_, rfl⟩
  | finished => exact ⟨_, rfl⟩
  | starting =>
    have hf : s.windowShouldClose inst.fWindow = true := by
      rcases hc with hc | hc
      · rw [hp] at hc; cases hc
      · exact hc
    simp only [hf, if_true]
    split <;> exact ⟨_, rfl⟩
  | running =>
    have hf : s.windowShouldClose inst.fWindow = true := by
      rcases hc with hc | hc
      · rw [hp] at hc; cases hc
      · exact hc
    simp only [hf, if_true]
    split <;> exact ⟨_, rfl⟩

/-- The join never returns while the thread is alive and the flag is not set. -/
theorem join_eq_none (s : State) (i : InstId) (inst : Instance)
    (h : s.instances[i]? = some inst)
    (hp : inst.fDrawingThread = ThreadPhase.starting ∨ inst.fDrawingThread = ThreadPhase.running)
    (hc : s.windowShouldClose inst.fWindow = false) :
    join s i = none := by
  unfold join
  simp only [h]
  rcases hp with hp | hp <;> simp [hp, hc]

theorem closeEditor_of_no_window (s : State) (i : InstId) (inst : Instance)
    (h : s.instances[i]? = some inst) (hw : inst.fWindow = none) :
    closeEditor s i = ⟨[], some s⟩ := by
  unfold closeEditor
  simp [h, hw]

theorem closeEditor_of_no_instance (s : State) (i : InstId)
    (h : s.instances[i]? = none) :
    closeEditor s i = ⟨[], some s⟩ := by
  unfold closeEditor
  simp [h]

/-- On an instance that holds a window, `closeEditor` waits for ever when the
drawing thread is alive and the close-requested flag is not set. -/
theorem closeEditor_blocks (s : State) (i : InstId) (inst : Instance) (w : WinId) (n : Nat)
    (h : s.instances[i]? = some inst) (hwf : inst.wf n) (hw : inst.fWindow = some w)
    (hp : inst.fDrawingThread ≠ ThreadPhase.finished)
    (hc : s.windowShouldClose (some w) = false) :
    closeEditor s i = ⟨[Call.threadJoin i], none⟩ := by
  have hph : inst.fDrawingThread = ThreadPhase.starting ∨ inst.fDrawingThread = ThreadPhase.running := by
    cases hq : inst.fDrawingThread with
    | idle => have := (hwf.1 hq).1; rw [hw] at this; cases this
    | starting => exact Or.inl rfl
    | running => exact Or.inr rfl
    | finished => exact absurd hq hp
  have hj : inst.fDrawingThread.joinable = true := by
    rcases hph with hq | hq <;> rw [hq] <;> rfl
  unfold closeEditor
  simp only [h, hw, hj, if_true]
  rw [join_eq_none s i inst h hph (by rw [hw]; exact hc)]

/-- On an instance that holds a window, `closeEditor` returns when the drawing
thread has finished or the close-requested flag is set: it joins, destroys the
window, decrements the counter and terminates GLFW when the counter reaches 0. -/
theorem closeEditor_returns (s : State) (i : InstId) (inst : Instance) (w : WinId) (n : Nat)
    (h : s.instances[i]? = some inst) (hwf : inst.wf n) (hw : inst.fWindow = some w)
    (hc : inst.fDrawingThread = ThreadPhase.finished ∨ s.windowShouldClose (some w) = true) :
    ∃ s1, closeEditor s i =
        ⟨Call.threadJoin i :: Call.glfwDestroyWindow (some w) ::
          (if decr32 s.glfw_initialized_cnt = 0 then [Call.glfwTerminate] else []), some s1⟩ ∧
      s1.glfw_initialized_cnt = decr32 s.glfw_initialized_cnt ∧
      s1.windows.length = s.windows.length ∧
      s1.instances = s.instances.set i
        { inst with fWindow := none, fMyImGuiContext := none, fDrawingThread := ThreadPhase.idle } := by
  have hlt := lt_of_getElem? h
  have hidle : inst.fDrawingThread ≠ ThreadPhase.idle := by
    intro hq; have := (hwf.1 hq).1; rw [hw] at this; cases this
  have hj : inst.fDrawingThread.joinable = true := by
    cases hq : inst.fDrawingThread with
    | idle => exact absurd hq hidle
    | _ => rfl
  obtain ⟨s1, hs1⟩ := join_isSome s i inst h (by rw [hw]; exact hc)
  obtain ⟨hlen, hcnt, -, -, c, hinst⟩ := join_effect s s1 i inst n h hwf hidle hs1
  have hget1 : s1.instances[i]? = some
      { inst with fMyImGuiContext := some c, fDrawingThread := ThreadPhase.idle } := by
    rw [hinst]; simp [hlt]
  unfold closeEditor
  simp only [h, hw, hj, if_true, hs1]
  unfold closeEditorCleanup
  simp only [hget1, hw, hcnt]
  refine ⟨_, rfl, ?_, ?_, ?_⟩
  · rfl
  · simp [hlen]
  · simp [hinst]

theorem set_concat_length {α : Type} (l : List α) (a b : α) :
    (l ++ [a]).set l.length b = l ++ [b] := by
  induction l with
  | nil => rfl
  | cons x xs ih => simp [ih]

/-- A failed open: the new instance stays as constructed, the counter is
incremented all the same, and no thread is started. -/
theorem construct_fail (s : State) (standalone : Bool) (parent width height : Nat)
    (initOk createOk : Bool) (hf : openFails s initOk createOk) :
    (construct s standalone parent width height initOk createOk).state.instances =
        s.instances ++ [newInstance standalone parent width height] ∧
    (construct s standalone parent width height initOk createOk).state.glfw_initialized_cnt =
        incr32 s.glfw_initialized_cnt ∧
    (construct s standalone parent width height initOk createOk).state.windows = s.windows ∧
    (construct s standalone parent width height initOk createOk).state.contexts = s.contexts ∧
    Call.threadStart s.instances.length ∉
      (construct s standalone parent width height initOk createOk).calls := by
  unfold construct openEditor setupGLFW
  simp only [List.getElem?_concat_length]
  by_cases h1 : s.glfw_initialized_cnt = 0 ∧ initOk = false
  · simp [h1, newInstance]
  · have h2 : createOk = false := by
      rcases hf with hf | hf
      · exact absurd hf h1
      · exact hf
    simp only [h1, h2, if_false, if_true]
    refine ⟨?_, ?_, ?_, ?_, ?_⟩
    · simp [set_concat_length, newInstance]
    · rfl
    · rfl
    · rfl
    · split <;> split <;> simp

/-- A successful open: the new instance holds the new window, which is the last
of the window table, and its drawing thread is started. -/
theorem construct_ok (s : State) (standalone : Bool) (parent width height : Nat)
    (initOk createOk : Bool) (hf : ¬ openFails s initOk createOk) :
    (construct s standalone parent width height initOk createOk).state.instances =
        s.instances ++ [{ newInstance standalone parent width height with
          fWindow := some s.windows.length, fDrawingThread := ThreadPhase.starting }] ∧
    (construct s standalone parent width height initOk createOk).state.glfw_initialized_cnt =
        incr32 s.glfw_initialized_cnt ∧
    (construct s standalone parent width height initOk createOk).state.windows.length =
        s.windows.length + 1 := by
  have h1 : ¬ (s.glfw_initialized_cnt = 0 ∧ initOk = false) := fun h => hf (Or.inl h)
  have h2 : createOk = true := by
    cases createOk with
    | true => rfl
    | false => exact absurd (Or.inr rfl) hf
  unfold construct openEditor setupGLFW
  simp only [List.getElem?_concat_length, h1, h2, if_false]
  simp only [Bool.true_eq_false, if_false, setInstance_instances, List.getElem?_set,
    List.length_append, List.length_singleton, if_true, Nat.lt_succ_self, set_concat_length,
    List.set_set, List.getElem?_concat_length]
  refine ⟨?_, ?_, ?_⟩
  · simp [newInstance, set_concat_length]
  · rfl
  · simp

theorem newInstance_wf (standalone : Bool) (parent width height n : Nat) :
    (newInstance standalone parent width height).wf n := by
  refine ⟨?_, ?_, ?_, ?_, ?_⟩ <;> simp [newInstance]

theorem construct_WF (s : State) (standalone : Bool) (parent width height : Nat)
    (initOk createOk : Bool) (h : WF s) :
    WF (construct s standalone parent width height initOk createOk).state := by
  by_cases hf : openFails s initOk createOk
  · obtain ⟨hi, -, hwin, -, -⟩ := construct_fail s standalone parent width height initOk createOk hf
    intro x hx
    rw [hi, List.mem_append] at hx
    rw [hwin]
    rcases hx with hx | hx
    · exact h x hx
    · rw [List.mem_singleton] at hx
      rw [hx]; exact newInstance_wf _ _ _ _ _
  · obtain ⟨hi, -, hwin⟩ := construct_ok s standalone parent width height initOk createOk hf
    intro x hx
    rw [hi, List.mem_append] at hx
    rw [hwin]
    rcases hx with hx | hx
    · exact Instance.wf_mono (h x hx) (Nat.le_succ _)
    · rw [List.mem_singleton] at hx
      rw [hx]
      refine ⟨?_, ?_, ?_, ?_, ?_⟩ <;> simp [newInstance]

theorem windowShouldClose_after_set (s : State) (w : WinId) (h : w < s.windows.length) :
    (s.updWindow (some w) (fun win => { win with shouldClose := true })).windowShouldClose (some w)
      = true := by
  unfold State.updWindow State.windowShouldClose
  have hw : s.windows[w]? = some s.windows[w] := List.getElem?_eq_getElem h
  simp [hw, h]

/-- All the ways `closeEditor` can return in a well-formed state: at once, with
no call, when the instance holds no window; otherwise after the join, with the
window destroyed and the counter decremented. -/
theorem closeEditor_cases (s s1 : State) (i : InstId) (h : WF s)
    (hs : (closeEditor s i).state = some s1) :
    ((closeEditor s i).calls = [] ∧ s1 = s ∧
      ∀ inst, s.instances[i]? = some inst → inst.fWindow = none) ∨
    (∃ inst w, s.instances[i]? = some inst ∧ inst.fWindow = some w ∧
      (inst.fDrawingThread = ThreadPhase.finished ∨ s.windowShouldClose (some w) = true) ∧
      (closeEditor s i).calls = Call.threadJoin i :: Call.glfwDestroyWindow (some w) ::
          (if decr32 s.glfw_initialized_cnt = 0 then [Call.glfwTerminate] else []) ∧
      s1.glfw_initialized_cnt = decr32 s.glfw_initialized_cnt ∧
      s1.windows.length = s.windows.length ∧
      s1.instances = s.instances.set i
        { inst with fWindow := none, fMyImGuiContext := none, fDrawingThread := ThreadPhase.idle }) := by
  cases hi : s.instances[i]? with
  | none =>
    rw [closeEditor_of_no_instance s i hi] at hs ⊢
    injection hs with hs
    exact Or.inl ⟨rfl, hs.symm, fun inst hinst => by cases hinst⟩
  | some inst =>
    have hwf := h inst (List.getElem?_mem hi)
    cases hw : inst.fWindow with
    | none =>
      rw [closeEditor_of_no_window s i inst hi hw] at hs ⊢
      injection hs with hs
      exact Or.inl ⟨rfl, hs.symm, fun inst1 hinst => by injection hinst with e; rw [← e]; exact hw⟩
    | some w =>
      by_cases hc : inst.fDrawingThread = ThreadPhase.finished ∨ s.windowShouldClose (some w) = true
      · obtain ⟨s2, he, hcnt, hlen, hinst⟩ := closeEditor_returns s i inst w _ hi hwf hw hc
        rw [he] at hs ⊢
        injection hs with hs
        subst hs
        exact Or.inr ⟨inst, w, rfl, hw, hc, rfl, hcnt, hlen, hinst⟩
      · have hp : inst.fDrawingThread ≠ ThreadPhase.finished := fun e => hc (Or.inl e)
        have hf : s.windowShouldClose (some w) = false := by
          cases hv : s.windowShouldClose (some w) with
          | false => rfl
          | true => exact absurd (Or.inr hv) hc
        rw [closeEditor_blocks s i inst w _ hi hwf hw hp hf] at hs
        cases hs

theorem closed_wf (inst : Instance) (n : Nat) :
    ({ inst with fWindow := none, fMyImGuiContext := none,
                 fDrawingThread := ThreadPhase.idle } : Instance).wf n := by
  refine ⟨?_, ?_, ?_, ?_, ?_⟩ <;> simp

theorem closeEditor_WF (s s1 : State) (i : InstId) (h : WF s)
    (hs : (closeEditor s i).state = some s1) : WF s1 := by
  rcases closeEditor_cases s s1 i h hs with ⟨-, he, -⟩ | ⟨inst, w, -, -, -, -, -, hlen, hinst⟩
  · rw [he]; exact h
  · exact WF_of_set h hinst (le_of_eq hlen.symm) (closed_wf _ _)

/-- The destructor on an instance that holds a window always returns: it sets the
close-requested flag, then `closeEditor` joins, destroys the window and
decrements the counter. -/
theorem destructor_open (s : State) (i : InstId) (inst : Instance) (w : WinId) (h : WF s)
    (hi : s.instances[i]? = some inst) (hw : inst.fWindow = some w) :
    ∃ s1, destructor s i =
        ⟨Call.glfwSetWindowShouldClose (some w) true :: Call.threadJoin i ::
          Call.glfwDestroyWindow (some w) ::
          (if decr32 s.glfw_initialized_cnt = 0 then [Call.glfwTerminate] else []), some s1⟩ ∧
      s1.glfw_initialized_cnt = decr32 s.glfw_initialized_cnt ∧
      s1.windows.length = s.windows.length ∧
      s1.instances = s.instances.set i
        { inst with fWindow := none, fMyImGuiContext := none, fDrawingThread := ThreadPhase.idle } := by
  have hwf := h inst (List.getElem?_mem hi)
  have hlt : w < s.windows.length := hwf.2.2.2.2 w hw
  have hi1 : (s.updWindow (some w) (fun win => { win with shouldClose := true })).instances[i]?
      = some inst := by rw [updWindow_instances]; exact hi
  obtain ⟨s2, he, hcnt, hlen, hinst⟩ := closeEditor_returns _ i inst w s.windows.length hi1 hwf hw
    (Or.inr (windowShouldClose_after_set s w hlt))
  refine ⟨s2, ?_, ?_, ?_, ?_⟩
  · unfold destructor
    simp only [hi, hw, he]
    simp
  · rw [hcnt, updWindow_cnt]
  · rw [hlen, updWindow_length]
  · rw [hinst, updWindow_instances]

theorem destructor_of_no_window (s : State) (i : InstId) (inst : Instance)
    (hi : s.instances[i]? = some inst) (hw : inst.fWindow = none) :
    destructor s i = ⟨[], some s⟩ := by
  unfold destructor
  simp only [hi, hw]
  exact closeEditor_of_no_window s i inst hi hw

theorem destructor_of_no_instance (s : State) (i : InstId) (hi : s.instances[i]? = none) :
    destructor s i = ⟨[], some s⟩ := by
  unfold destructor
  simp only [hi]

/-- All the ways the destructor can end in a well-formed state. -/
theorem destructor_cases (s : State) (i : InstId) (h : WF s) :
    (destructor s i = ⟨[], some s⟩ ∧
      ∀ inst, s.instances[i]? = some inst → inst.fWindow = none) ∨
    (∃ inst w s1, s.instances[i]? = some inst ∧ inst.fWindow = some w ∧
      destructor s i =
        ⟨Call.glfwSetWindowShouldClose (some w) true :: Call.threadJoin i ::
          Call.glfwDestroyWindow (some w) ::
          (if decr32 s.glfw_initialized_cnt = 0 then [Call.glfwTerminate] else []), some s1⟩ ∧
      s1.glfw_initialized_cnt = decr32 s.glfw_initialized_cnt ∧
      s1.windows.length = s.windows.length ∧
      s1.instances = s.instances.set i
        { inst with fWindow := none, fMyImGuiContext := none, fDrawingThread := ThreadPhase.idle }) := by
  cases hi : s.instances[i]? with
  | none => exact Or.inl ⟨destructor_of_no_instance s i hi, fun inst hinst => by cases hinst⟩
  | some inst =>
    cases hw : inst.fWindow with
    | none =>
      exact Or.inl ⟨destructor_of_no_window s i inst hi hw,
        fun inst1 hinst => by injection hinst with e; rw [← e]; exact hw⟩
    | some w =>
      obtain ⟨s1, h1, h2, h3, h4⟩ := destructor_open s i inst w h hi hw
      exact Or.inr ⟨inst, w, s1, rfl, hw, h1, h2, h3, h4⟩

theorem destructor_WF (s s1 : State) (i : InstId) (h : WF s)
    (hs : (destructor s i).state = some s1) : WF s1 := by
  rcases destructor_cases s i h with ⟨he, -⟩ | ⟨inst, w, s2, -, -, he, -, hlen, hinst⟩
  · rw [he] at hs; injection hs with hs; rw [← hs]; exact h
  · rw [he] at hs; injection hs with hs; rw [← hs]
    exact WF_of_set h hinst (le_of_eq hlen.symm) (closed_wf _ _)

theorem sizeChanged_instances (s : State) (i : InstId) (width height : Nat) :
    (sizeChanged s i width height).state.instances = s.instances := by
  unfold sizeChanged
  split
  · rfl
  · split
    · simp
    · rfl

theorem sizeChanged_length (s : State) (i : InstId) (width height : Nat) :
    (sizeChanged s i width height).state.windows.length = s.windows.length := by
  unfold sizeChanged
  split
  · rfl
  · split
    · simp
    · rfl

theorem sizeChanged_cnt (s : State) (i : InstId) (width height : Nat) :
    (sizeChanged s i width height).state.glfw_initialized_cnt = s.glfw_initialized_cnt := by
  unfold sizeChanged
  split
  · rfl
  · split
    · simp
    · rfl

theorem memberCallback_state (s : State) (i : InstId) (ev : InputEvent) :
    (memberCallback s i ev).state.instances = s.instances ∧
    (memberCallback s i ev).state.windows = s.windows ∧
    (memberCallback s i ev).state.contexts = s.contexts ∧
    (memberCallback s i ev).state.glfw_initialized_cnt = s.glfw_initialized_cnt := by
  unfold memberCallback
  split <;> exact ⟨rfl, rfl, rfl, rfl⟩

theorem nativeCallback_state (s : State) (w : WinId) (ev : InputEvent) :
    (nativeCallback s w ev).state.instances = s.instances ∧
    (nativeCallback s w ev).state.windows = s.windows ∧
    (nativeCallback s w ev).state.contexts = s.contexts ∧
    (nativeCallback s w ev).state.glfw_initialized_cnt = s.glfw_initialized_cnt := by
  unfold nativeCallback
  split
  · exact ⟨rfl, rfl, rfl, rfl⟩
  · split
    · split
      · exact ⟨rfl, rfl, rfl, rfl⟩
      · exact memberCallback_state s _ ev
    · exact ⟨rfl, rfl, rfl, rfl⟩

theorem closeRequest_state (s : State) (w : WinId) :
    (closeRequest s w).state.instances = s.instances ∧
    (closeRequest s w).state.windows.length = s.windows.length ∧
    (closeRequest s w).state.glfw_initialized_cnt = s.glfw_initialized_cnt := by
  unfold closeRequest
  split
  · exact ⟨rfl, rfl, rfl⟩
  · split
    · exact ⟨rfl, rfl, rfl⟩
    · split
      · split <;> simp
      · simp

/-- Every operation that returns keeps the state well formed. -/
theorem step_WF (s s1 : State) (op : Op) (h : WF s) (hs : (step s op).state = some s1) : WF s1 := by
  cases op with
  | create standalone parent width height initOk createOk =>
    injection hs with hs; rw [← hs]; exact construct_WF s _ _ _ _ _ _ h
  | closeEditor i => exact closeEditor_WF s s1 i h hs
  | destroy i => exact destructor_WF s s1 i h hs
  | uiIdle i =>
    injection hs with hs; rw [← hs, uiIdle_state]; exact h
  | sizeChanged i width height =>
    injection hs with hs; rw [← hs]
    exact WF_of_same h (sizeChanged_instances s i width height)
      (le_of_eq (sizeChanged_length s i width height).symm)
  | threadStep i =>
    injection hs with hs; rw [← hs]; exact threadStep_WF s i h
  | input w ev =>
    injection hs with hs; rw [← hs]
    exact WF_of_same h (nativeCallback_state s w ev).1
      (le_of_eq (congrArg List.length (nativeCallback_state s w ev).2.1).symm)
  | closeRequest w =>
    injection hs with hs; rw [← hs]
    exact WF_of_same h (closeRequest_state s w).1 (le_of_eq (closeRequest_state s w).2.1.symm)

theorem exec_WF (ops : List Op) (s s1 : State) (h : WF s) (hs : exec ops s = some s1) : WF s1 := by
  induction ops generalizing s with
  | nil => injection hs with hs; rw [← hs]; exact h
  | cons op ops ih =>
    unfold exec at hs
    cases hstep : (step s op).state with
    | none => rw [hstep] at hs; cases hs
    | some s2 =>
      rw [hstep] at hs
      exact ih s2 (step_WF s s2 op h hstep) hs

theorem init_WF : WF State.init := by
  intro x hx; cases hx

theorem Reachable.wf {s : State} (h : Reachable s) : WF s := by
  obtain ⟨ops, hops⟩ := h
  exact exec_WF ops State.init s init_WF hops

theorem incr32_of_lt {n : Nat} (h : n + 1 < 2 ^ 32) : incr32 n = n + 1 := by
  unfold incr32; rw [if_pos h]

theorem decr32_of_pos {n : Nat} (h : 1 ≤ n) : decr32 n = n - 1 := by
  unfold decr32; rw [if_neg (by omega)]

/-- On 32-bit values `incr32` is addition modulo `2^32`. -/
theorem incr32_eq_mod (n : Nat) (h : n < 2 ^ 32) : incr32 n = (n + 1) % 2 ^ 32 := by
  unfold incr32
  split
  · rw [Nat.mod_eq_of_lt (by assumption)]
  · have : n + 1 = 2 ^ 32 := by omega
    rw [this, Nat.mod_self]

/-- On 32-bit values `decr32` is subtraction modulo `2^32`. -/
theorem decr32_eq_mod (n : Nat) (h : n < 2 ^ 32) : decr32 n = (n + 2 ^ 32 - 1) % 2 ^ 32 := by
  unfold decr32
  split
  · rename_i h0; subst h0; norm_num
  · have e : n + 2 ^ 32 - 1 = (n - 1) + 2 ^ 32 := by omega
    rw [e, Nat.add_mod_right, Nat.mod_eq_of_lt (by omega)]

theorem countP_set_same {α : Type} (p : α → Bool) (l : List α) (i : Nat) (a b : α)
    (h : l[i]? = some a) (hp : p b = p a) : (l.set i b).countP p = l.countP p := by
  induction l generalizing i with
  | nil => rfl
  | cons x xs ih =>
    cases i with
    | zero =>
      simp only [List.getElem?_cons_zero, Option.some.injEq] at h
      subst h
      simp [List.countP_cons, hp]
    | succ k =>
      simp only [List.getElem?_cons_succ] at h
      simp [List.countP_cons, ih k h]

theorem countP_set_drop {α : Type} (p : α → Bool) (l : List α) (i : Nat) (a b : α)
    (h : l[i]? = some a) (hpa : p a = true) (hpb : p b = false) :
    (l.set i b).countP p + 1 = l.countP p := by
  induction l generalizing i with
  | nil => cases h
  | cons x xs ih =>
    cases i with
    | zero =>
      simp only [List.getElem?_cons_zero, Option.some.injEq] at h
      subst h
      simp [List.countP_cons, hpa, hpb]
    | succ k =>
      simp only [List.getElem?_cons_succ] at h
      have := ih k h
      simp only [List.set_cons_succ, List.countP_cons]
      omega

theorem openCount_of_instances {s t : State} (h : t.instances = s.instances) :
    t.openCount = s.openCount := by
  unfold State.openCount; rw [h]

theorem construct_Counted (s : State) (n : Nat) (standalone : Bool) (parent width height : Nat)
    (initOk createOk : Bool) (h : Counted s n) (hn : n + 1 < 2 ^ 32) :
    Counted (construct s standalone parent width height initOk createOk).state (n + 1) := by
  have hc : incr32 s.glfw_initialized_cnt = s.glfw_initialized_cnt + 1 :=
    incr32_of_lt (lt_of_le_of_lt (Nat.succ_le_succ h.2) hn)
  by_cases hf : openFails s initOk createOk
  · obtain ⟨hi, hcnt, -, -, -⟩ := construct_fail s standalone parent width height initOk createOk hf
    unfold Counted State.openCount
    rw [hi, hcnt, hc, List.countP_append]
    have h1 := h.1
    have h2 := h.2
    unfold State.openCount at h1
    simp [newInstance]
    omega
  · obtain ⟨hi, hcnt, -⟩ := construct_ok s standalone parent width height initOk createOk hf
    unfold Counted State.openCount
    rw [hi, hcnt, hc, List.countP_append]
    have h1 := h.1
    have h2 := h.2
    unfold State.openCount at h1
    simp [newInstance]
    omega

theorem closed_Counted (s s1 : State) (n i : Nat) (inst : Instance) (w : WinId)
    (h : Counted s n) (hi : s.instances[i]? = some inst) (hw : inst.fWindow = some w)
    (hcnt : s1.glfw_initialized_cnt = decr32 s.glfw_initialized_cnt)
    (hinst : s1.instances = s.instances.set i
        { inst with fWindow := none, fMyImGuiContext := none, fDrawingThread := ThreadPhase.idle }) :
    1 ≤ s.glfw_initialized_cnt ∧ s1.glfw_initialized_cnt + 1 = s.glfw_initialized_cnt ∧
      Counted s1 n := by
  have hdrop := countP_set_drop (fun x : Instance => x.fWindow.isSome) s.instances i inst
    { inst with fWindow := none, fMyImGuiContext := none, fDrawingThread := ThreadPhase.idle }
    hi (by simp [hw]) rfl
  have h1 := h.1
  have h2 := h.2
  unfold State.openCount at h1
  have hpos : 1 ≤ s.glfw_initialized_cnt := by omega
  have hd := decr32_of_pos hpos
  unfold Counted State.openCount
  rw [hinst, hcnt, hd]
  omega

theorem threadStep_openCount (s : State) (i : InstId) :
    (threadStep s i).state.openCount = s.openCount := by
  obtain ⟨-, -, hinst⟩ := threadStep_effect s i
  rcases hinst with hsame | ⟨inst, hget, ⟨-, hset⟩ | ⟨-, hset⟩⟩
  · exact openCount_of_instances hsame
  · unfold State.openCount; rw [hset]
    exact countP_set_same _ _ _ inst _ hget rfl
  · unfold State.openCount; rw [hset]
    exact countP_set_same _ _ _ inst _ hget rfl

theorem Counted_of_same {s t : State} {n : Nat} (h : Counted s n)
    (hi : t.instances = s.instances)
    (hc : t.glfw_initialized_cnt = s.glfw_initialized_cnt) : Counted t n := by
  unfold Counted
  rw [openCount_of_instances hi, hc]
  exact h

theorem step_Counted (s s1 : State) (op : Op) (n : Nat) (hwf : WF s) (h : Counted s n)
    (hn : n + opens [op] < 2 ^ 32) (hs : (step s op).state = some s1) :
    Counted s1 (n + opens [op]) := by
  cases op with
  | create standalone parent width height initOk createOk =>
    injection hs with hs; rw [← hs]
    exact construct_Counted s n _ _ _ _ _ _ h hn
  | closeEditor i =>
    rcases closeEditor_cases s s1 i hwf hs with ⟨-, he, -⟩ | ⟨inst, w, hi, hw, -, -, hcnt, -, hinst⟩
    · rw [he]; exact h
    · exact (closed_Counted s s1 n i inst w h hi hw hcnt hinst).2.2
  | destroy i =>
    change (destructor s i).state = some s1 at hs
    rcases destructor_cases s i hwf with ⟨he, -⟩ | ⟨inst, w, s2, hi, hw, he, hcnt, -, hinst⟩
    · rw [he] at hs; injection hs with hs; rw [← hs]; exact h
    · rw [he] at hs; injection hs with hs; rw [← hs]
      exact (closed_Counted s s2 n i inst w h hi hw hcnt hinst).2.2
  | uiIdle i =>
    injection hs with hs; rw [← hs, uiIdle_state]; exact h
  | sizeChanged i width height =>
    injection hs with hs; rw [← hs]
    exact Counted_of_same h (sizeChanged_instances s i width height) (sizeChanged_cnt s i width height)
  | threadStep i =>
    injection hs with hs; rw [← hs]
    unfold Counted
    rw [threadStep_openCount, (threadStep_effect s i).2.1]
    exact h
  | input w ev =>
    injection hs with hs; rw [← hs]
    exact Counted_of_same h (nativeCallback_state s w ev).1 (nativeCallback_state s w ev).2.2.2
  | closeRequest w =>
    injection hs with hs; rw [← hs]
    exact Counted_of_same h (closeRequest_state s w).1 (closeRequest_state s w).2.2

theorem opens_cons (op : Op) (ops : List Op) : opens (op :: ops) = opens [op] + opens ops := by
  cases op <;> simp [opens, Nat.add_comm]

theorem exec_Counted (ops : List Op) (s s1 : State) (n : Nat) (hwf : WF s) (h : Counted s n)
    (hn : n + opens ops < 2 ^ 32) (hs : exec ops s = some s1) :
    Counted s1 (n + opens ops) := by
  induction ops generalizing s n with
  | nil => injection hs with hs; rw [← hs]; exact h
  | cons op ops ih =>
    unfold exec at hs
    rw [opens_cons] at hn ⊢
    cases hstep : (step s op).state with
    | none => rw [hstep] at hs; cases hs
    | some s2 =>
      rw [hstep] at hs
      have h2 := step_Counted s s2 op n hwf h (by omega) hstep
      have := ih s2 (n + opens [op]) (step_WF s s2 op hwf hstep) h2 (by omega) hs
      rw [Nat.add_assoc] at this
      exact this

theorem init_Counted : Counted State.init 0 := ⟨Nat.le_refl _, Nat.le_refl _⟩

theorem join_cnt (s s1 : State) (i : InstId) (hs : join s i = some s1) :
    s1.glfw_initialized_cnt = s.glfw_initialized_cnt := by
  unfold join at hs
  split at hs
  · injection hs with hs; rw [← hs]
  · split at hs
    · injection hs with hs; rw [← hs]
    · injection hs with hs; rw [← hs]; rfl
    · split at hs
      · have e : (threadStep (threadStep s i).state i).state.glfw_initialized_cnt
            = s.glfw_initialized_cnt := by
          rw [(threadStep_effect _ i).2.1, (threadStep_effect _ i).2.1]
        dsimp only at hs
        split at hs <;> (injection hs with hs; rw [← hs]; simpa using e)
      · cases hs
    · split at hs
      · have e := (threadStep_effect s i).2.1
        dsimp only at hs
        split at hs <;> (injection hs with hs; rw [← hs]; simpa using e)
      · cases hs

theorem decr32_eq_zero {n : Nat} (h : decr32 n = 0) : n = 1 := by
  unfold decr32 at h
  split at h
  · norm_num at h
  · omega

/-- In any state, the clean-up of `closeEditor` calls `glfwTerminate` exactly
when it decrements the counter to 0, and at most once. -/
theorem closeEditorCleanup_terminate (s : State) (i : InstId) :
    (Call.glfwTerminate ∈ (closeEditorCleanup s i).calls ↔
      ((closeEditorCleanup s i).state.glfw_initialized_cnt ≠ s.glfw_initialized_cnt ∧
       (closeEditorCleanup s i).state.glfw_initialized_cnt = 0)) ∧
    (closeEditorCleanup s i).calls.count Call.glfwTerminate ≤ 1 := by
  unfold closeEditorCleanup
  split
  · simp
  · split
    · simp
    · simp only [setInstance_cnt]
      by_cases hd : decr32 s.glfw_initialized_cnt = 0
      · have h1 := decr32_eq_zero hd
        refine ⟨⟨fun _ => ⟨?_, hd⟩, fun _ => by simp [hd]⟩, by simp [hd]⟩
        rw [hd, h1]; decide
      · simp [hd]

/-- In any state, `closeEditor` calls `glfwTerminate` exactly when it returns
with the counter changed and equal to 0, and at most once. -/
theorem closeEditor_terminate (s : State) (i : InstId) :
    (Call.glfwTerminate ∈ (closeEditor s i).calls ↔
      ∃ s1, (closeEditor s i).state = some s1 ∧
        s1.glfw_initialized_cnt ≠ s.glfw_initialized_cnt ∧ s1.glfw_initialized_cnt = 0) ∧
    (closeEditor s i).calls.count Call.glfwTerminate ≤ 1 := by
  unfold closeEditor
  split
  · simp
  · split
    · simp
    · split
      · cases hj : join s i with
        | none => simp
        | some s1 =>
          have hc := join_cnt s s1 i hj
          have ht := closeEditorCleanup_terminate s1 i
          rw [hc] at ht
          simp only [List.mem_cons, reduceCtorEq, Option.some.injEq, exists_eq_left', false_or]
          refine ⟨ht.1, ?_⟩
          rw [List.count_cons_of_ne (by simp)]
          exact ht.2
      · have ht := closeEditorCleanup_terminate s i
        simp only [Option.some.injEq, exists_eq_left']
        exact ht

/-- The same for the destructor. -/
theorem destructor_terminate (s : State) (i : InstId) :
    (Call.glfwTerminate ∈ (destructor s i).calls ↔
      ∃ s1, (destructor s i).state = some s1 ∧
        s1.glfw_initialized_cnt ≠ s.glfw_initialized_cnt ∧ s1.glfw_initialized_cnt = 0) ∧
    (destructor s i).calls.count Call.glfwTerminate ≤ 1 := by
  unfold destructor
  split
  · simp
  · split
    · exact closeEditor_terminate s i
    · rename_i w _
      have ht := closeEditor_terminate
        (s.updWindow (some w) (fun win => { win with shouldClose := true })) i
      rw [updWindow_cnt] at ht
      simp only [List.mem_cons, reduceCtorEq, false_or]
      refine ⟨ht.1, ?_⟩
      rw [List.count_cons_of_ne (by simp)]
      exact ht.2

/-- In any state, the constructor calls `glfwInit`, and installs the error
callback, exactly when the counter is 0 before the open. -/
theorem construct_init (s : State) (standalone : Bool) (parent width height : Nat)
    (initOk createOk : Bool) :
    (Call.glfwInit ∈ (construct s standalone parent width height initOk createOk).calls ↔
      s.glfw_initialized_cnt = 0) ∧
    (Call.glfwSetErrorCallback ∈ (construct s standalone parent width height initOk createOk).calls ↔
      s.glfw_initialized_cnt = 0) ∧
    (construct s standalone parent width height initOk createOk).calls.count Call.glfwInit ≤ 1 := by
  unfold construct openEditor setupGLFW
  simp only [List.getElem?_concat_length]
  by_cases h0 : s.glfw_initialized_cnt = 0
  · cases initOk <;> cases createOk <;> cases standalone <;> simp [h0, set_concat_length]
  · cases initOk <;> cases createOk <;> cases standalone <;> simp [h0, set_concat_length]

/-- C1 (the code departs from the claim): an open that fails leaves the counter
incremented. After a first open whose `glfwInit` fails, and after a first open
whose `glfwCreateWindow` fails, `glfw_initialized_cnt` is 1 while no instance is
open; the next open then finds the counter at 1, does not call `glfwInit`, and
calls `glfwCreateWindow` with the library not initialised. -/
theorem C1_failed_open_keeps_counter :
    (exec [Op.create true 0 640 480 false true] State.init).map
        (fun s => (s.glfw_initialized_cnt, s.openCount)) = some (1, 0) ∧
    (exec [Op.create true 0 640 480 true false] State.init).map
        (fun s => (s.glfw_initialized_cnt, s.openCount)) = some (1, 0) ∧
    (exec [Op.create true 0 640 480 false true] State.init).map
        (fun s => ((construct s true 0 640 480 true false).calls.contains Call.glfwInit,
                   (construct s true 0 640 480 true false).calls.contains (Call.glfwCreateWindow 640 480),
                   (construct s true 0 640 480 true false).state.glfw_initialized_cnt,
                   (construct s true 0 640 480 true false).state.openCount,
                   (construct s true 0 640 480 true false).state.glfwInitialized))
      = some (false, true, 2, 0, false) := by
  decide

/-- C2: the constructor calls `glfwInit` and installs the error callback exactly
when `glfw_initialized_cnt` is 0 before the open; `closeEditor` and the destructor
call `glfwTerminate` exactly when they return with the counter decremented to 0,
and at most once. After two successful opens A and B the counter is 2; closing A
leaves it at 1 without `glfwTerminate`; closing B brings it to 0 with exactly one
`glfwTerminate`. -/
theorem C2_init_and_terminate_follow_counter :
    (∀ (s : State) (standalone : Bool) (parent width height : Nat) (initOk createOk : Bool),
      (Call.glfwInit ∈ (construct s standalone parent width height initOk createOk).calls ↔
        s.glfw_initialized_cnt = 0) ∧
      (Call.glfwSetErrorCallback ∈ (construct s standalone parent width height initOk createOk).calls ↔
        s.glfw_initialized_cnt = 0) ∧
      (construct s standalone parent width height initOk createOk).calls.count Call.glfwInit ≤ 1) ∧
    (∀ (s : State) (i : InstId),
      (Call.glfwTerminate ∈ (closeEditor s i).calls ↔
        ∃ s1, (closeEditor s i).state = some s1 ∧
          s1.glfw_initialized_cnt ≠ s.glfw_initialized_cnt ∧ s1.glfw_initialized_cnt = 0) ∧
      (closeEditor s i).calls.count Call.glfwTerminate ≤ 1) ∧
    (∀ (s : State) (i : InstId),
      (Call.glfwTerminate ∈ (destructor s i).calls ↔
        ∃ s1, (destructor s i).state = some s1 ∧
          s1.glfw_initialized_cnt ≠ s.glfw_initialized_cnt ∧ s1.glfw_initialized_cnt = 0) ∧
      (destructor s i).calls.count Call.glfwTerminate ≤ 1) ∧
    (exec [openOk, openOk] State.init).map (fun s => s.glfw_initialized_cnt) = some 2 ∧
    (exec [openOk, openOk] State.init).map
        (fun s => ((destructor s 0).calls.count Call.glfwTerminate,
                   (destructor s 0).state.map (fun t => (t.glfw_initialized_cnt, t.glfwInitialized))))
      = some (0, some (1, true)) ∧
    (exec [openOk, openOk, Op.destroy 0] State.init).map
        (fun s => ((destructor s 1).calls.count Call.glfwTerminate,
                   (destructor s 1).state.map (fun t => (t.glfw_initialized_cnt, t.glfwInitialized))))
      = some (1, some (0, false)) ∧
    (exec [openOk, openOk, Op.closeRequest 0, Op.closeRequest 1] State.init).map
        (fun s => ((closeEditor s 0).calls.count Call.glfwTerminate,
                   (closeEditor s 0).state.map (fun t => t.glfw_initialized_cnt)))
      = some (0, some 1) ∧
    (exec [openOk, openOk, Op.closeRequest 0, Op.closeRequest 1, Op.closeEditor 0] State.init).map
        (fun s => ((closeEditor s 1).calls.count Call.glfwTerminate,
                   (closeEditor s 1).state.map (fun t => t.glfw_initialized_cnt)))
      = some (1, some 0) :=
  ⟨construct_init, closeEditor_terminate, destructor_terminate,
    by decide, by decide, by decide, by decide, by decide⟩

/-- C3: in a state reached by a run with fewer than `2^32` opens the counter is a
32-bit value; whenever `closeEditor` or the destructor reaches the block with
`glfwDestroyWindow` and `--glfw_initialized_cnt`, the counter is at least 1; and
the counter they return is either unchanged or exactly one less, never wrapped. -/
theorem C3_decrement_never_wraps (ops : List Op) (s : State) (i : InstId)
    (hreach : exec ops State.init = some s) (hopens : opens ops < 2 ^ 32) :
    s.glfw_initialized_cnt < 2 ^ 32 ∧
    (∀ w, Call.glfwDestroyWindow w ∈ (closeEditor s i).calls → 1 ≤ s.glfw_initialized_cnt) ∧
    (∀ w, Call.glfwDestroyWindow w ∈ (destructor s i).calls → 1 ≤ s.glfw_initialized_cnt) ∧
    (∀ s1, (closeEditor s i).state = some s1 →
      s1.glfw_initialized_cnt = s.glfw_initialized_cnt ∨
      (1 ≤ s.glfw_initialized_cnt ∧ s1.glfw_initialized_cnt + 1 = s.glfw_initialized_cnt)) ∧
    (∀ s1, (destructor s i).state = some s1 →
      s1.glfw_initialized_cnt = s.glfw_initialized_cnt ∨
      (1 ≤ s.glfw_initialized_cnt ∧ s1.glfw_initialized_cnt + 1 = s.glfw_initialized_cnt)) := by
  have hwf : WF s := exec_WF ops State.init s init_WF hreach
  have hc : Counted s (0 + opens ops) :=
    exec_Counted ops State.init s 0 init_WF init_Counted (by omega) hreach
  have hpos : ∀ inst w, s.instances[i]? = some inst → inst.fWindow = some w →
      1 ≤ s.glfw_initialized_cnt := by
    intro inst w hi hw
    have h1 := hc.1
    have hdrop := countP_set_drop (fun x : Instance => x.fWindow.isSome) s.instances i inst
      { inst with fWindow := none } hi (by simp [hw]) rfl
    unfold State.openCount at h1
    omega
  refine ⟨by have := hc.2; omega, ?_, ?_, ?_, ?_⟩
  · intro w hmem
    cases hi : s.instances[i]? with
    | none => rw [closeEditor_of_no_instance s i hi] at hmem; cases hmem
    | some inst =>
      cases hw : inst.fWindow with
      | none => rw [closeEditor_of_no_window s i inst hi hw] at hmem; cases hmem
      | some v => exact hpos inst v hi hw
  · intro w hmem
    rcases destructor_cases s i hwf with ⟨he, -⟩ | ⟨inst, v, s2, hi, hw, -, -, -, -⟩
    · rw [he] at hmem; cases hmem
    · exact hpos inst v hi hw
  · intro s1 hs
    rcases closeEditor_cases s s1 i hwf hs with ⟨-, he, -⟩ | ⟨inst, w, hi, hw, -, -, hcnt, -, hinst⟩
    · exact Or.inl (by rw [he])
    · have := closed_Counted s s1 _ i inst w hc hi hw hcnt hinst
      exact Or.inr ⟨this.1, this.2.1⟩
  · intro s1 hs
    rcases destructor_cases s i hwf with ⟨he, -⟩ | ⟨inst, w, s2, hi, hw, he, hcnt, -, hinst⟩
    · rw [he] at hs; injection hs with hs; exact Or.inl (by rw [hs])
    · rw [he] at hs; injection hs with hs
      have := closed_Counted s s2 _ i inst w hc hi hw hcnt hinst
      rw [hs] at this
      exact Or.inr ⟨this.1, this.2.1⟩

/-- Witness of C3: after opening A and B and asking both windows to close,
`closeEditor` on A destroys the window, and the counter is at least 1 there. -/
theorem C3_decrement_never_wraps_witness :
    exec demoOps State.init = some demoState ∧ opens demoOps < 2 ^ 32 ∧
    Call.glfwDestroyWindow (some 0) ∈ (closeEditor demoState 0).calls ∧
    1 ≤ demoState.glfw_initialized_cnt :=
  ⟨by decide, by decide, by decide,
    (C3_decrement_never_wraps demoOps demoState 0 (by decide) (by decide)).2.1 (some 0)
      (by decide)⟩

theorem closeEditor_noop_of_closed (s : State) (i : InstId)
    (h : ∀ inst, s.instances[i]? = some inst → inst.fWindow = none) :
    closeEditor s i = ⟨[], some s⟩ := by
  cases hi : s.instances[i]? with
  | none => exact closeEditor_of_no_instance s i hi
  | some inst => exact closeEditor_of_no_window s i inst hi (h inst hi)

theorem destructor_noop_of_closed (s : State) (i : InstId)
    (h : ∀ inst, s.instances[i]? = some inst → inst.fWindow = none) :
    destructor s i = ⟨[], some s⟩ := by
  cases hi : s.instances[i]? with
  | none => exact destructor_of_no_instance s i hi
  | some inst => exact destructor_of_no_window s i inst hi (h inst hi)

/-- After `closeEditor` has returned in a well-formed state, the instance holds
no window and its thread object is not joinable. -/
theorem closeEditor_closed (s s1 : State) (i : InstId) (hwf : WF s)
    (hs : (closeEditor s i).state = some s1) :
    ∀ inst, s1.instances[i]? = some inst →
      inst.fWindow = none ∧ inst.fDrawingThread.joinable = false := by
  intro inst hinst
  rcases closeEditor_cases s s1 i hwf hs with ⟨-, he, hnone⟩ | ⟨inst0, w, hi, -, -, -, -, -, hset⟩
  · subst he
    have hw := hnone inst hinst
    have hwf1 := hwf inst (List.getElem?_mem hinst)
    refine ⟨hw, ?_⟩
    cases hp : inst.fDrawingThread with
    | idle => rfl
    | starting => exact absurd hw (hwf1.2.1 hp).1
    | running => exact absurd hw (hwf1.2.2.1 hp).1
    | finished => exact absurd hw (hwf1.2.2.2.1 hp).1
  · have hlt := lt_of_getElem? hi
    rw [hset, List.getElem?_set, if_pos rfl, if_pos hlt] at hinst
    injection hinst with hinst
    rw [← hinst]
    exact ⟨rfl, rfl⟩

/-- C4: in a reachable state, once `closeEditor` has returned, a second
`closeEditor` on the same instance issues no call and returns the very same
state (instance fields and counter included), because `fWindow` is `NULL` after
the first; the destructor after an explicit close is such a no-op too. -/
theorem C4_closeEditor_idempotent (s s1 : State) (i : InstId) (hr : Reachable s)
    (h1 : (closeEditor s i).state = some s1) :
    closeEditor s1 i = ⟨[], some s1⟩ ∧
    destructor s1 i = ⟨[], some s1⟩ ∧
    (∀ inst, s1.instances[i]? = some inst → inst.fWindow = none) := by
  have hclosed := closeEditor_closed s s1 i hr.wf h1
  have hnone : ∀ inst, s1.instances[i]? = some inst → inst.fWindow = none :=
    fun inst hinst => (hclosed inst hinst).1
  exact ⟨closeEditor_noop_of_closed s1 i hnone, destructor_noop_of_closed s1 i hnone, hnone⟩

/-- Witness of C4: A and B are open and asked to close; `closeEditor` on A
returns, and a second `closeEditor` on A is a no-op. -/
theorem C4_closeEditor_idempotent_witness :
    Reachable demoState ∧ (closeEditor demoState 0).state = some demoClosed ∧
    (closeEditor demoState 0).calls = [Call.threadJoin 0, Call.glfwDestroyWindow (some 0)] ∧
    closeEditor demoClosed 0 = ⟨[], some demoClosed⟩ :=
  ⟨⟨demoOps, by decide⟩, by decide, by decide,
    (C4_closeEditor_idempotent demoState demoClosed 0 ⟨demoOps, by decide⟩ (by decide)).1⟩

/-- C5: in a reachable state, when `closeEditor` returns the drawing thread of
the instance is not joinable; a joinable thread implies `fWindow != NULL`; and
among the calls of `closeEditor` every `glfwDestroyWindow` comes after the join
and every `glfwTerminate` comes after a `glfwDestroyWindow`. -/
theorem C5_join_before_destroy (s s1 : State) (i : InstId) (hr : Reachable s)
    (h1 : (closeEditor s i).state = some s1) :
    (∀ inst, s1.instances[i]? = some inst → inst.fDrawingThread.joinable = false) ∧
    (∀ inst, s.instances[i]? = some inst → inst.fDrawingThread.joinable = true →
      inst.fWindow ≠ none) ∧
    (∀ pre w post, (closeEditor s i).calls = pre ++ Call.glfwDestroyWindow w :: post →
      Call.threadJoin i ∈ pre) ∧
    (∀ pre post, (closeEditor s i).calls = pre ++ Call.glfwTerminate :: post →
      ∃ w, Call.glfwDestroyWindow w ∈ pre) := by
  have hwf := hr.wf
  refine ⟨fun inst hinst => (closeEditor_closed s s1 i hwf h1 inst hinst).2, ?_, ?_, ?_⟩
  · intro inst hinst hj
    have hwf1 := hwf inst (List.getElem?_mem hinst)
    cases hp : inst.fDrawingThread with
    | idle => rw [hp] at hj; cases hj
    | starting => exact (hwf1.2.1 hp).1
    | running => exact (hwf1.2.2.1 hp).1
    | finished => exact (hwf1.2.2.2.1 hp).1
  · intro pre w post hcalls
    rcases closeEditor_cases s s1 i hwf h1 with ⟨he, -, -⟩ | ⟨inst, v, -, -, -, he, -, -, -⟩
    · rw [he] at hcalls
      cases pre <;> cases hcalls
    · rw [he] at hcalls
      cases pre with
      | nil => simp at hcalls
      | cons a pre =>
        simp only [List.cons_append, List.cons.injEq] at hcalls
        rw [← hcalls.1]
        exact List.mem_cons_self _ _
  · intro pre post hcalls
    rcases closeEditor_cases s s1 i hwf h1 with ⟨he, -, -⟩ | ⟨inst, v, -, -, -, he, -, -, -⟩
    · rw [he] at hcalls
      cases pre <;> cases hcalls
    · rw [he] at hcalls
      cases pre with
      | nil => simp at hcalls
      | cons a pre =>
        cases pre with
        | nil => simp at hcalls
        | cons b pre =>
          simp only [List.cons_append, List.cons.injEq] at hcalls
          refine ⟨some v, ?_⟩
          rw [← hcalls.2.1]
          exact List.mem_cons_of_mem _ (List.mem_cons_self _ _)

/-- Witness of C5: A is the only instance and is asked to close; `closeEditor`
joins, destroys the window, then terminates GLFW, and leaves no joinable thread. -/
theorem C5_join_before_destroy_witness :
    Reachable loneState ∧ (closeEditor loneState 0).state = some loneClosed ∧
    (closeEditor loneState 0).calls =
      [Call.threadJoin 0, Call.glfwDestroyWindow (some 0), Call.glfwTerminate] ∧
    (∀ inst, loneClosed.instances[0]? = some inst → inst.fDrawingThread.joinable = false) :=
  ⟨⟨[openOk, Op.closeRequest 0], by decide⟩, by decide, by decide,
    (C5_join_before_destroy loneState loneClosed 0 ⟨[openOk, Op.closeRequest 0], by decide⟩
      (by decide)).1⟩

/-- C6 (the claim as stated fails): A is open, its drawing thread is running and
the close-requested flag of its window is false; `closeEditor` issues the join as
its only call, sets no flag, and never returns. -/
theorem C6_closeEditor_does_not_set_flag :
    (exec [openOk, Op.threadStep 0] State.init).map
      (fun s => (s.openCount, s.windowShouldClose (some 0), closeEditor s 0)) =
      some (1, false, ⟨[Call.threadJoin 0], none⟩) := by
  decide

/-- C6 (amended): in a reachable state, for an instance that holds window `w`,
the destructor sets the close-requested flag of `w` first, then `closeEditor`
joins the drawing thread, destroys the window and decrements the counter
(terminating GLFW at 0), and the destructor returns. `closeEditor` itself never
sets the flag: it waits for ever when the flag is false and the thread has not
finished, and it joins, destroys and decrements when the flag is already set. -/
theorem C6_destructor_sets_flag_before_join (s : State) (i : InstId) (inst : Instance)
    (w : WinId) (hr : Reachable s) (hi : s.instances[i]? = some inst)
    (hw : inst.fWindow = some w) :
    (∃ s1, destructor s i =
        ⟨Call.glfwSetWindowShouldClose (some w) true :: Call.threadJoin i ::
          Call.glfwDestroyWindow (some w) ::
          (if decr32 s.glfw_initialized_cnt = 0 then [Call.glfwTerminate] else []), some s1⟩ ∧
      s1.glfw_initialized_cnt = decr32 s.glfw_initialized_cnt ∧
      s1.instances = s.instances.set i
        { inst with fWindow := none, fMyImGuiContext := none, fDrawingThread := ThreadPhase.idle }) ∧
    (∀ v b, Call.glfwSetWindowShouldClose v b ∉ (closeEditor s i).calls) ∧
    (s.windowShouldClose (some w) = false → inst.fDrawingThread ≠ ThreadPhase.finished →
      closeEditor s i = ⟨[Call.threadJoin i], none⟩) ∧
    (s.windowShouldClose (some w) = true →
      ∃ s1, closeEditor s i =
        ⟨Call.threadJoin i :: Call.glfwDestroyWindow (some w) ::
          (if decr32 s.glfw_initialized_cnt = 0 then [Call.glfwTerminate] else []), some s1⟩ ∧
        s1.glfw_initialized_cnt = decr32 s.glfw_initialized_cnt) := by
  have hwf := hr.wf
  have hwf1 := hwf inst (List.getElem?_mem hi)
  refine ⟨?_, ?_, ?_, ?_⟩
  · obtain ⟨s1, h1, h2, -, h4⟩ := destructor_open s i inst w hwf hi hw
    exact ⟨s1, h1, h2, h4⟩
  · intro v b hmem
    by_cases hc : inst.fDrawingThread = ThreadPhase.finished ∨ s.windowShouldClose (some w) = true
    · obtain ⟨s1, he, -⟩ := closeEditor_returns s i inst w _ hi hwf1 hw hc
      rw [he] at hmem
      simp only [List.mem_cons, reduceCtorEq, false_or] at hmem
      split at hmem <;> simp at hmem
    · have hp : inst.fDrawingThread ≠ ThreadPhase.finished := fun e => hc (Or.inl e)
      have hf : s.windowShouldClose (some w) = false := by
        cases hv : s.windowShouldClose (some w) with
        | false => rfl
        | true => exact absurd (Or.inr hv) hc
      rw [closeEditor_blocks s i inst w _ hi hwf1 hw hp hf] at hmem
      simp at hmem
  · intro hf hp
    exact closeEditor_blocks s i inst w _ hi hwf1 hw hp hf
  · intro hf
    obtain ⟨s1, he, hcnt, -⟩ := closeEditor_returns s i inst w _ hi hwf1 hw (Or.inr hf)
    exact ⟨s1, he, hcnt⟩

/-- Witness of C6 (amended): A is open and drawing; the destructor sets the flag,
joins, destroys the window and terminates GLFW. -/
theorem C6_destructor_sets_flag_before_join_witness :
    Reachable drawingState ∧
    (drawingState.instances[0]?).map (fun inst => inst.fWindow) = some (some 0) ∧
    (destructor drawingState 0).calls =
      [Call.glfwSetWindowShouldClose (some 0) true, Call.threadJoin 0,
       Call.glfwDestroyWindow (some 0), Call.glfwTerminate] ∧
    (∀ v b, Call.glfwSetWindowShouldClose v b ∉ (closeEditor drawingState 0).calls) :=
  ⟨⟨[openOk, Op.threadStep 0], by decide⟩, by decide, by decide,
    (C6_destructor_sets_flag_before_join drawingState 0
      { standalone := true, parent := 0, width := 640, height := 480, fWindow := some 0,
        fMyImGuiContext := some 0, fDrawingThread := ThreadPhase.running } 0
      ⟨[openOk, Op.threadStep 0], by decide⟩ (by decide) rfl).2.1⟩

theorem idle_no_window {inst : Instance} {n : Nat} (hwf : inst.wf n)
    (hp : inst.fDrawingThread = ThreadPhase.idle) : inst.fWindow = none := (hwf.1 hp).1

theorem get_after_close (s s1 : State) (i j : InstId) (inst instj : Instance) (w : WinId)
    (hwf : WF s) (hi : s.instances[i]? = some inst) (hp : inst.fDrawingThread = ThreadPhase.idle)
    (hj : s.instances[j]? = some instj) (hw : instj.fWindow = some w)
    (hset : s1.instances = s.instances.set j
      { instj with fWindow := none, fMyImGuiContext := none, fDrawingThread := ThreadPhase.idle }) :
    s1.instances[i]? = some inst := by
  have hne : j ≠ i := by
    intro e
    subst e
    rw [hi] at hj
    injection hj with hj
    subst hj
    have := idle_no_window (hwf inst (List.getElem?_mem hi)) hp
    rw [hw] at this
    cases this
  rw [hset, List.getElem?_set_ne hne]
  exact hi

/-- An instance whose thread object is idle (never opened, or closed) keeps all
its fields through every operation that returns. -/
theorem step_keeps_idle (s s1 : State) (op : Op) (i : InstId) (inst : Instance) (hwf : WF s)
    (hi : s.instances[i]? = some inst) (hp : inst.fDrawingThread = ThreadPhase.idle)
    (hs : (step s op).state = some s1) : s1.instances[i]? = some inst := by
  have hlt := lt_of_getElem? hi
  cases op with
  | create standalone parent width height initOk createOk =>
    injection hs with hs; rw [← hs]
    by_cases hf : openFails s initOk createOk
    · rw [(construct_fail s standalone parent width height initOk createOk hf).1,
        List.getElem?_append_left hlt]
      exact hi
    · rw [(construct_ok s standalone parent width height initOk createOk hf).1,
        List.getElem?_append_left hlt]
      exact hi
  | closeEditor j =>
    rcases closeEditor_cases s s1 j hwf hs with ⟨-, he, -⟩ | ⟨instj, w, hj, hw, -, -, -, -, hset⟩
    · rw [he]; exact hi
    · exact get_after_close s s1 i j inst instj w hwf hi hp hj hw hset
  | destroy j =>
    change (destructor s j).state = some s1 at hs
    rcases destructor_cases s j hwf with ⟨he, -⟩ | ⟨instj, w, s2, hj, hw, he, -, -, hset⟩
    · rw [he] at hs; injection hs with hs; rw [← hs]; exact hi
    · rw [he] at hs; injection hs with hs; rw [← hs]
      exact get_after_close s s2 i j inst instj w hwf hi hp hj hw hset
  | uiIdle j =>
    injection hs with hs; rw [← hs, uiIdle_state]; exact hi
  | sizeChanged j width height =>
    injection hs with hs; rw [← hs, sizeChanged_instances]; exact hi
  | threadStep j =>
    injection hs with hs; rw [← hs]
    obtain ⟨-, -, hinst⟩ := threadStep_effect s j
    rcases hinst with hsame | ⟨instj, hj, ⟨hq, hset⟩ | ⟨hq, hset⟩⟩
    · rw [hsame]; exact hi
    · have hne : j ≠ i := by
        intro e; subst e; rw [hi] at hj; injection hj with hj; subst hj
        rw [hp] at hq; cases hq
      rw [hset, List.getElem?_set_ne hne]; exact hi
    · have hne : j ≠ i := by
        intro e; subst e; rw [hi] at hj; injection hj with hj; subst hj
        rw [hp] at hq; cases hq
      rw [hset, List.getElem?_set_ne hne]; exact hi
  | input w ev =>
    injection hs with hs; rw [← hs, (nativeCallback_state s w ev).1]; exact hi
  | closeRequest w =>
    injection hs with hs; rw [← hs, (closeRequest_state s w).1]; exact hi

theorem exec_keeps_idle (ops : List Op) (s s1 : State) (i : InstId) (inst : Instance)
    (hwf : WF s) (hi : s.instances[i]? = some inst)
    (hp : inst.fDrawingThread = ThreadPhase.idle) (hs : exec ops s = some s1) :
    s1.instances[i]? = some inst := by
  induction ops generalizing s with
  | nil => injection hs with hs; rw [← hs]; exact hi
  | cons op ops ih =>
    unfold exec at hs
    cases hstep : (step s op).state with
    | none => rw [hstep] at hs; cases hs
    | some s2 =>
      rw [hstep] at hs
      exact ih s2 (step_WF s s2 op hwf hstep) (step_keeps_idle s s2 op i inst hwf hi hp hstep) hs

theorem uiIdle_noop (s : State) (i : InstId) (inst : Instance)
    (hi : s.instances[i]? = some inst) (hw : inst.fWindow = none) : uiIdle s i = ⟨[], s⟩ := by
  unfold uiIdle
  simp [hi, hw]

theorem sizeChanged_noop (s : State) (i : InstId) (inst : Instance) (width height : Nat)
    (hi : s.instances[i]? = some inst) (hw : inst.fWindow = none) :
    sizeChanged s i width height = ⟨[], s⟩ := by
  unfold sizeChanged
  simp [hi, hw]

theorem setupGLFW_fails (s : State) (i : InstId) (inst : Instance) (initOk createOk : Bool)
    (hi : s.instances[i]? = some inst) (hf : openFails s initOk createOk) :
    (setupGLFW s i initOk createOk).1 = false := by
  unfold setupGLFW
  simp only [hi]
  by_cases h1 : s.glfw_initialized_cnt = 0 ∧ initOk = false
  · simp [h1]
  · have h2 : createOk = false := by
      rcases hf with hf | hf
      · exact absurd hf h1
      · exact hf
    simp [h1, h2]

/-- C7: when `setupGLFW` fails during an open in a reachable state (`glfwInit` is
called and returns false, or `glfwCreateWindow` returns `NULL`), it returns
false, the constructor starts no drawing thread, and the new instance keeps
`fWindow = NULL` and `fMyImGuiContext = nullptr`; after any further operations
the instance is still so, and `closeEditor`, the destructor, `uiIdle` and
`sizeChanged` on it issue no call and leave the state as it is. -/
theorem C7_failed_open_is_inert (s : State) (standalone : Bool) (parent width height : Nat)
    (initOk createOk : Bool) (hr : Reachable s) (hf : openFails s initOk createOk) :
    (setupGLFW { s with instances := s.instances ++ [newInstance standalone parent width height] }
        s.instances.length initOk createOk).1 = false ∧
    Call.threadStart s.instances.length ∉
      (construct s standalone parent width height initOk createOk).calls ∧
    (construct s standalone parent width height initOk createOk).state.instances[s.instances.length]?
      = some { standalone := standalone, parent := parent, width := width, height := height,
               fWindow := none, fMyImGuiContext := none, fDrawingThread := ThreadPhase.idle } ∧
    ∀ (ops : List Op) (s2 : State),
      exec ops (construct s standalone parent width height initOk createOk).state = some s2 →
      s2.instances[s.instances.length]?
        = some { standalone := standalone, parent := parent, width := width, height := height,
                 fWindow := none, fMyImGuiContext := none, fDrawingThread := ThreadPhase.idle } ∧
      closeEditor s2 s.instances.length = ⟨[], some s2⟩ ∧
      destructor s2 s.instances.length = ⟨[], some s2⟩ ∧
      uiIdle s2 s.instances.length = ⟨[], s2⟩ ∧
      ∀ w h, sizeChanged s2 s.instances.length w h = ⟨[], s2⟩ := by
  obtain ⟨hinst, -, -, -, hthread⟩ :=
    construct_fail s standalone parent width height initOk createOk hf
  have hget : (construct s standalone parent width height initOk createOk).state.instances[s.instances.length]?
      = some (newInstance standalone parent width height) := by
    rw [hinst, List.getElem?_concat_length]
  have hwf1 : WF (construct s standalone parent width height initOk createOk).state :=
    construct_WF s _ _ _ _ _ _ hr.wf
  refine ⟨?_, hthread, hget, ?_⟩
  · exact setupGLFW_fails _ _ (newInstance standalone parent width height) _ _
      (List.getElem?_concat_length _ _) hf
  · intro ops s2 hs
    have h2 := exec_keeps_idle ops _ s2 _ _ hwf1 hget rfl hs
    exact ⟨h2, closeEditor_of_no_window s2 _ _ h2 rfl, destructor_of_no_window s2 _ _ h2 rfl,
      uiIdle_noop s2 _ _ h2 rfl, fun w h => sizeChanged_noop s2 _ _ w h h2 rfl⟩

/-- Witness of C7: the very first open fails in `glfwInit`; B is then opened and
draws; `closeEditor` and `uiIdle` on the failed instance are no-ops. -/
theorem C7_failed_open_is_inert_witness :
    Reachable State.init ∧ openFails State.init false true ∧
    exec [openOk, Op.threadStep 1] (construct State.init true 0 640 480 false true).state
      = some afterFailure ∧
    closeEditor afterFailure 0 = ⟨[], some afterFailure⟩ ∧
    uiIdle afterFailure 0 = ⟨[], afterFailure⟩ :=
  ⟨⟨[], rfl⟩, by decide, by decide,
    ((C7_failed_open_is_inert State.init true 0 640 480 false true ⟨[], rfl⟩ (by decide)).2.2.2
      [openOk, Op.threadStep 1] afterFailure (by decide)).2.1,
    ((C7_failed_open_is_inert State.init true 0 640 480 false true ⟨[], rfl⟩ (by decide)).2.2.2
      [openOk, Op.threadStep 1] afterFailure (by decide)).2.2.2.1⟩

/-- C8: when GLFW delivers an input event to a live window `w` that carries the
callbacks of `_setMyGLFWCallbacks`, the native callback reads the user pointer
of `w`, sets the current ImGui context (of the main thread) to the
`fMyImGuiContext` of the instance stored there, and then forwards the event, for
each of the six kinds, to the ImGui callback of that kind with that instance's
`fWindow` and the same arguments: `ImGui_ImplGlfw_CharCallback(fWindow, c)`,
`ImGui_ImplGlfw_CursorEnterCallback(fWindow, entered)`,
`ImGui_ImplGlfw_MouseButtonCallback(fWindow, button, action, mods)`,
`ImGui_ImplGlfw_ScrollCallback(fWindow, xoffset, yoffset)`,
`ImGui_ImplGlfw_KeyCallback(fWindow, key, scancode, action, mods)` and
`ImGui_ImplGlfw_CursorPosCallback(fWindow, x, y)`. Nothing else is called, no
other context is activated, and nothing but the current-context pointer changes,
so no instance is modified. `_setMyGLFWCallbacks` is what puts a window of the
table into that condition, with the calling instance as user pointer. -/
theorem C8_callback_activates_owner (s : State) (w : WinId) (win : Window)
    (i : InstId) (inst : Instance)
    (hwin : s.windows[w]? = some win) (hcb : win.inputCallbacks = true)
    (hlive : win.destroyed = false) (hptr : win.userPointer = some i)
    (hi : s.instances[i]? = some inst) :
    (∀ c : Nat, (nativeCallback s w (InputEvent.char c)).calls =
      [Call.glfwGetWindowUserPointer w, Call.ImGui_SetCurrentContext inst.fMyImGuiContext,
       Call.ImGui_ImplGlfw_CharCallback inst.fWindow c]) ∧
    (∀ entered : Int, (nativeCallback s w (InputEvent.cursorEnter entered)).calls =
      [Call.glfwGetWindowUserPointer w, Call.ImGui_SetCurrentContext inst.fMyImGuiContext,
       Call.ImGui_ImplGlfw_CursorEnterCallback inst.fWindow entered]) ∧
    (∀ button action mods : Int,
      (nativeCallback s w (InputEvent.mouseButton button action mods)).calls =
      [Call.glfwGetWindowUserPointer w, Call.ImGui_SetCurrentContext inst.fMyImGuiContext,
       Call.ImGui_ImplGlfw_MouseButtonCallback inst.fWindow button action mods]) ∧
    (∀ xoffset yoffset : Double, (nativeCallback s w (InputEvent.scroll xoffset yoffset)).calls =
      [Call.glfwGetWindowUserPointer w, Call.ImGui_SetCurrentContext inst.fMyImGuiContext,
       Call.ImGui_ImplGlfw_ScrollCallback inst.fWindow xoffset yoffset]) ∧
    (∀ key scancode action mods : Int,
      (nativeCallback s w (InputEvent.key key scancode action mods)).calls =
      [Call.glfwGetWindowUserPointer w, Call.ImGui_SetCurrentContext inst.fMyImGuiContext,
       Call.ImGui_ImplGlfw_KeyCallback inst.fWindow key scancode action mods]) ∧
    (∀ x y : Double, (nativeCallback s w (InputEvent.cursorPos x y)).calls =
      [Call.glfwGetWindowUserPointer w, Call.ImGui_SetCurrentContext inst.fMyImGuiContext,
       Call.ImGui_ImplGlfw_CursorPosCallback inst.fWindow x y]) ∧
    (∀ ev : InputEvent,
      (nativeCallback s w ev).state = { s with mainContext := inst.fMyImGuiContext }) ∧
    (∀ (ev : InputEvent) (c : Option CtxId),
      Call.ImGui_SetCurrentContext c ∈ (nativeCallback s w ev).calls →
      c = inst.fMyImGuiContext) ∧
    (∀ (t : State) (j : InstId) (instj : Instance) (v : WinId) (winv : Window),
      t.instances[j]? = some instj → instj.fWindow = some v → t.windows[v]? = some winv →
      (_setMyGLFWCallbacks t j).state.windows[v]? =
        some { winv with inputCallbacks := true, userPointer := some j }) := by
  have hcalls : ∀ ev : InputEvent, (nativeCallback s w ev).calls =
      [Call.glfwGetWindowUserPointer w, Call.ImGui_SetCurrentContext inst.fMyImGuiContext,
       forward inst.fWindow ev] := by
    intro ev
    unfold nativeCallback memberCallback
    simp [hwin, hcb, hlive, hptr, hi]
  refine ⟨?_, ?_, ?_, ?_, ?_, ?_, ?_, ?_, ?_⟩
  · intro c
    rw [hcalls]; rfl
  · intro entered
    rw [hcalls]; rfl
  · intro button action mods
    rw [hcalls]; rfl
  · intro xoffset yoffset
    rw [hcalls]; rfl
  · intro key scancode action mods
    rw [hcalls]; rfl
  · intro x y
    rw [hcalls]; rfl
  · intro ev
    unfold nativeCallback memberCallback
    simp [hwin, hcb, hlive, hptr, hi]
  · intro ev c hc
    rw [hcalls ev] at hc
    simp only [List.mem_cons, reduceCtorEq, false_or, Call.ImGui_SetCurrentContext.injEq,
      List.mem_singleton, List.not_mem_nil, or_false] at hc
    rcases hc with hc | hc
    · exact hc
    · cases ev <;> cases hc
  · intro t j instj v winv hj hv hwinv
    have hlt := lt_of_getElem? hwinv
    rw [setMyGLFWCallbacks_state t j instj hj, hv]
    unfold State.updWindow
    simp [hwinv, hlt]

/-- Witness of C8: a key callback on A's window while B is open activates A's
context only, forwards the key with A's window and the same arguments, and
leaves all instances, B included, and all contexts as they are. -/
theorem C8_callback_activates_owner_witness :
    (bothDrawing.instances.map (fun x => (x.fWindow, x.fMyImGuiContext)))
      = [(some 0, some 0), (some 1, some 1)] ∧
    (bothDrawing.windows.map (fun x => (x.inputCallbacks, x.destroyed, x.userPointer)))
      = [(true, false, some 0), (true, false, some 1)] ∧
    (nativeCallback bothDrawing 0 (InputEvent.key 65 38 1 0)).calls =
      [Call.glfwGetWindowUserPointer 0, Call.ImGui_SetCurrentContext (some 0),
       Call.ImGui_ImplGlfw_KeyCallback (some 0) 65 38 1 0] ∧
    (nativeCallback bothDrawing 0 (InputEvent.key 65 38 1 0)).state.instances
      = bothDrawing.instances ∧
    (nativeCallback bothDrawing 0 (InputEvent.key 65 38 1 0)).state.contexts
      = bothDrawing.contexts ∧
    (nativeCallback bothDrawing 0 (InputEvent.key 65 38 1 0)).state.mainContext = some 0 :=
  ⟨by decide, by decide,
    (C8_callback_activates_owner bothDrawing 0
      { width := 640, height := 480, shouldClose := false, userPointer := some 0,
        closeCallback := true, inputCallbacks := true, destroyed := false } 0
      { standalone := true, parent := 0, width := 640, height := 480, fWindow := some 0,
        fMyImGuiContext := some 0, fDrawingThread := ThreadPhase.running }
      (by decide) rfl rfl rfl (by decide)).2.2.2.2.1 65 38 1 0,
    by decide, by decide, by decide⟩

theorem toInt32_of_lt (n : Nat) (h : n < 2 ^ 31) : toInt32 n = (n : Int) := by
  unfold toInt32
  have h1 : n % 2 ^ 32 = n := Nat.mod_eq_of_lt (by omega)
  rw [h1, if_pos h]

theorem floatUlp_of_lt (n : Nat) (h : n < 2 ^ 24) : floatUlp n = 1 := by
  unfold floatUlp
  rw [if_pos h]

theorem toFloat_of_lt (n : Nat) (h : n < 2 ^ 24) : toFloat n = (n : Int) := by
  unfold toFloat
  simp only [floatUlp_of_lt n h]
  simp [Nat.mod_one]

/-- On an instance with window `w` and live context `c`,
`sizeChanged(width, height)` calls `glfwSetWindowSize` with the arguments
converted to `int`, which becomes the size of `w`, makes `c` current and sets its
`io.DisplaySize` to the size the instance stores (`getWidth()`, `getHeight()`)
converted to `float`. When the stored size is `(width, height)` and both are
below `2^24`, the native size and the logical display size are both
`(width, height)`. -/
theorem sizeChanged_effect (s : State) (i : InstId) (inst : Instance) (w : WinId) (c : CtxId)
    (win : Window) (ctx : Context) (width height : Nat)
    (hi : s.instances[i]? = some inst) (hw : inst.fWindow = some w)
    (hc : inst.fMyImGuiContext = some c) (hwin : s.windows[w]? = some win)
    (hctx : s.contexts[c]? = some ctx) (hlive : ctx.destroyed = false) :
    (sizeChanged s i width height).calls =
      [Call.glfwSetWindowSize (some w) (toInt32 width) (toInt32 height),
       Call.ImGui_SetCurrentContext (some c), Call.ImGui_GetIO] ∧
    (sizeChanged s i width height).state.windows[w]? =
      some { win with width := toInt32 width, height := toInt32 height } ∧
    (sizeChanged s i width height).state.contexts[c]? =
      some { ctx with displayX := toFloat inst.width, displayY := toFloat inst.height } ∧
    (sizeChanged s i width height).state.mainContext = some c ∧
    (inst.width = width → inst.height = height → width < 2 ^ 24 → height < 2 ^ 24 →
      (sizeChanged s i width height).state.windows[w]? =
        some { win with width := (width : Int), height := (height : Int) } ∧
      (sizeChanged s i width height).state.contexts[c]? =
        some { ctx with displayX := (width : Int), displayY := (height : Int) }) := by
  have hwlt := lt_of_getElem? hwin
  have hclt := lt_of_getElem? hctx
  have h1 : (sizeChanged s i width height).calls =
      [Call.glfwSetWindowSize (some w) (toInt32 width) (toInt32 height),
       Call.ImGui_SetCurrentContext (some c), Call.ImGui_GetIO] := by
    unfold sizeChanged
    simp [hi, hw, hc]
  have h2 : (sizeChanged s i width height).state.windows[w]? =
      some { win with width := toInt32 width, height := toInt32 height } := by
    unfold sizeChanged
    simp only [hi, hw, hc, Option.isSome_some, and_self, if_true, updContext_windows]
    unfold State.updWindow
    simp [hwin, hwlt]
  have h3 : (sizeChanged s i width height).state.contexts[c]? =
      some { ctx with displayX := toFloat inst.width, displayY := toFloat inst.height } := by
    unfold sizeChanged
    simp only [hi, hw, hc, Option.isSome_some, and_self, if_true]
    unfold State.updContext
    simp [hctx, hlive, hclt]
  have h4 : (sizeChanged s i width height).state.mainContext = some c := by
    unfold sizeChanged
    simp [hi, hw, hc]
  refine ⟨h1, h2, h3, h4, ?_⟩
  intro ew eh hwd hht
  rw [h2, h3, ew, eh, toInt32_of_lt width (by omega), toInt32_of_lt height (by omega),
    toFloat_of_lt width hwd, toFloat_of_lt height hht]
  exact ⟨rfl, rfl⟩

theorem toFloat_of_le (n : Nat) (h : n ≤ 2 ^ 24) : toFloat n = (n : Int) := by
  rcases Nat.lt_or_ge n (2 ^ 24) with hlt | hge
  · exact toFloat_of_lt n hlt
  · have e : n = 2 ^ 24 := Nat.le_antisymm h hge
    subst e
    decide

theorem setMyGLFWCallbacks_noPoll (s : State) (i : InstId) :
    Call.glfwPollEvents ∉ (_setMyGLFWCallbacks s i).calls := by
  unfold _setMyGLFWCallbacks
  split <;> simp

theorem setupImGui_noPoll (s : State) (i : InstId) :
    Call.glfwPollEvents ∉ (setupImGui s i).calls := by
  unfold setupImGui
  split
  · simp
  · have := setMyGLFWCallbacks_noPoll
    simp [this]

theorem drawFrame_noPoll (s : State) (i : InstId) :
    Call.glfwPollEvents ∉ (drawFrame s i).calls := by
  unfold drawFrame
  split
  · simp
  · split <;> simp

theorem drawingThreadCleanup_noPoll (s : State) (i : InstId) :
    Call.glfwPollEvents ∉ (drawingThreadCleanup s i).calls := by
  unfold drawingThreadCleanup
  split <;> simp

theorem threadStep_noPoll (s : State) (i : InstId) :
    Call.glfwPollEvents ∉ (threadStep s i).calls := by
  unfold threadStep
  split
  · simp
  · split
    · simp
    · simp
    · have := setupImGui_noPoll s i
      dsimp only
      split
      · exact this
      · exact this
    · split
      · have := drawingThreadCleanup_noPoll s i
        simpa using this
      · have := drawFrame_noPoll s i
        simpa using this

theorem construct_noPoll (s : State) (standalone : Bool) (parent width height : Nat)
    (initOk createOk : Bool) :
    Call.glfwPollEvents ∉ (construct s standalone parent width height initOk createOk).calls := by
  unfold construct openEditor setupGLFW
  simp only [List.getElem?_concat_length]
  by_cases h0 : s.glfw_initialized_cnt = 0
  · cases initOk <;> cases createOk <;> cases standalone <;> simp [h0, set_concat_length]
  · cases initOk <;> cases createOk <;> cases standalone <;> simp [h0, set_concat_length]

theorem closeEditorCleanup_noPoll (s : State) (i : InstId) :
    Call.glfwPollEvents ∉ (closeEditorCleanup s i).calls := by
  unfold closeEditorCleanup
  split
  · simp
  · split
    · simp
    · simp only [List.mem_cons, reduceCtorEq, false_or]
      split <;> simp

theorem closeEditor_noPoll (s : State) (i : InstId) :
    Call.glfwPollEvents ∉ (closeEditor s i).calls := by
  unfold closeEditor
  split
  · simp
  · split
    · simp
    · split
      · split
        · simp
        · have := closeEditorCleanup_noPoll
          simp [this]
      · exact closeEditorCleanup_noPoll s i

theorem destructor_noPoll (s : State) (i : InstId) :
    Call.glfwPollEvents ∉ (destructor s i).calls := by
  unfold destructor
  split
  · simp
  · split
    · exact closeEditor_noPoll s i
    · have := closeEditor_noPoll
      simp [this]

theorem sizeChanged_noPoll (s : State) (i : InstId) (width height : Nat) :
    Call.glfwPollEvents ∉ (sizeChanged s i width height).calls := by
  unfold sizeChanged
  split
  · simp
  · split <;> simp

theorem nativeCallback_noPoll (s : State) (w : WinId) (ev : InputEvent) :
    Call.glfwPollEvents ∉ (nativeCallback s w ev).calls := by
  unfold nativeCallback memberCallback
  split
  · simp
  · split
    · split
      · simp
      · split
        · simp
        · cases ev <;> simp [forward]
    · simp

theorem closeRequest_noPoll (s : State) (w : WinId) :
    Call.glfwPollEvents ∉ (closeRequest s w).calls := by
  unfold closeRequest
  split
  · simp
  · split
    · simp
    · split
      · split <;> simp
      · simp

/-- C10: `glfwPollEvents` is issued by no operation other than `uiIdle`, and by
none of the procedures of the drawing thread (`setupImGui`, `drawFrame`, the end
of `imgui_drawing_thread`, hence no scheduler step); `uiIdle` issues none of the
calls with which `drawFrame` draws and swaps buffers; and `uiIdle` polls, once,
exactly when the instance has a window and a context and
`glfwWindowShouldClose` answers false. -/
theorem C10_polling_only_in_uiIdle :
    (∀ (s : State) (op : Op), Call.glfwPollEvents ∈ (step s op).calls → ∃ i, op = Op.uiIdle i) ∧
    (∀ (s : State) (i : InstId),
      Call.glfwPollEvents ∉ (setupImGui s i).calls ∧
      Call.glfwPollEvents ∉ (drawFrame s i).calls ∧
      Call.glfwPollEvents ∉ (drawingThreadCleanup s i).calls ∧
      Call.glfwPollEvents ∉ (threadStep s i).calls) ∧
    (∀ (s : State) (i : InstId) (c : Call), c ∈ (uiIdle s i).calls → c.isDrawing = false) ∧
    (∀ (s : State) (i : InstId) (c : Call), c ∈ (drawFrame s i).calls →
      c.isDrawing = true ∨ ∃ x, c = Call.ImGui_SetCurrentContext x) ∧
    (∀ (s : State) (i : InstId), Call.glfwPollEvents ∈ (uiIdle s i).calls ↔
      ∃ inst w c, s.instances[i]? = some inst ∧ inst.fWindow = some w ∧
        inst.fMyImGuiContext = some c ∧ s.windowShouldClose (some w) = false) ∧
    (∀ (s : State) (i : InstId), (uiIdle s i).calls.count Call.glfwPollEvents ≤ 1) := by
  refine ⟨?_, ?_, ?_, ?_, ?_, ?_⟩
  · intro s op h
    cases op with
    | create standalone parent width height initOk createOk =>
      exact absurd h (construct_noPoll s _ _ _ _ _ _)
    | closeEditor i => exact absurd h (closeEditor_noPoll s i)
    | destroy i => exact absurd h (destructor_noPoll s i)
    | uiIdle i => exact ⟨i, rfl⟩
    | sizeChanged i width height => exact absurd h (sizeChanged_noPoll s i width height)
    | threadStep i => exact absurd h (threadStep_noPoll s i)
    | input w ev => exact absurd h (nativeCallback_noPoll s w ev)
    | closeRequest w => exact absurd h (closeRequest_noPoll s w)
  · intro s i
    exact ⟨setupImGui_noPoll s i, drawFrame_noPoll s i, drawingThreadCleanup_noPoll s i,
      threadStep_noPoll s i⟩
  · intro s i c hc
    unfold uiIdle at hc
    split at hc
    · cases hc
    · split at hc
      · split at hc
        · simp only [List.mem_singleton] at hc
          rw [hc]; rfl
        · simp only [List.mem_cons, List.mem_singleton, List.not_mem_nil, or_false] at hc
          rcases hc with hc | hc <;> (rw [hc]; rfl)
      · cases hc
  · intro s i c hc
    unfold drawFrame at hc
    split at hc
    · cases hc
    · split at hc
      · cases hc
      · simp only [List.mem_cons, List.mem_singleton, List.not_mem_nil, or_false] at hc
        rcases hc with hc | hc | hc | hc | hc | hc | hc | hc | hc | hc | hc | hc | hc
        · exact Or.inr ⟨_, hc⟩
        all_goals (rw [hc]; exact Or.inl rfl)
  · intro s i
    unfold uiIdle
    cases hi : s.instances[i]? with
    | none => simp
    | some inst =>
      cases hw : inst.fWindow with
      | none => simp [hw]
      | some w =>
        cases hc : inst.fMyImGuiContext with
        | none => simp [hw, hc]
        | some c =>
          cases hf : s.windowShouldClose (some w) <;> simp [hw, hc, hf]
  · intro s i
    unfold uiIdle
    split
    · simp
    · split
      · split <;> simp
      · simp

/-- The calls and the result of `setupGLFW` once `glfwInit` has not failed, for
an embedded instance. -/
theorem setupGLFW_embedded (s : State) (i : InstId) (inst : Instance) (initOk createOk : Bool)
    (hi : s.instances[i]? = some inst)
    (hinit : ¬ (s.glfw_initialized_cnt = 0 ∧ initOk = false)) (hm : inst.standalone = false) :
    (setupGLFW s i initOk createOk).2.calls =
      (if s.glfw_initialized_cnt = 0 then [Call.glfwSetErrorCallback, Call.glfwInit] else []) ++
      [Call.glfwWindowHint Hint.GLFW_RESIZABLE false,
       Call.glfwWindowHint Hint.GLFW_DECORATED false,
       Call.glfwWindowHint Hint.GLFW_EMBEDDED_WINDOW true,
       Call.glfwWindowHintVoid inst.parent,
       Call.glfwCreateWindow (toInt32 inst.width) (toInt32 inst.height)] ++
      (if createOk = true then
        [Call.glfwSetWindowPos (some s.windows.length) 0 0,
         Call.glfwSetWindowUserPointer (some s.windows.length) i]
       else []) := by
  unfold setupGLFW
  simp only [hi, hinit, if_false, hm]
  cases createOk <;> simp

/-- The calls of `setupGLFW` once `glfwInit` has not failed, for a standalone
instance. -/
theorem setupGLFW_standalone (s : State) (i : InstId) (inst : Instance) (initOk createOk : Bool)
    (hi : s.instances[i]? = some inst)
    (hinit : ¬ (s.glfw_initialized_cnt = 0 ∧ initOk = false)) (hm : inst.standalone = true) :
    (setupGLFW s i initOk createOk).2.calls =
      (if s.glfw_initialized_cnt = 0 then [Call.glfwSetErrorCallback, Call.glfwInit] else []) ++
      [Call.glfwCreateWindow (toInt32 inst.width) (toInt32 inst.height)] ++
      (if createOk = true then
        [Call.glfwSetWindowPos (some s.windows.length) 0 0,
         Call.glfwSetWindowCloseCallback (some s.windows.length),
         Call.glfwSetWindowUserPointer (some s.windows.length) i]
       else []) := by
  unfold setupGLFW
  simp only [hi, hinit, if_false, hm]
  cases createOk <;> simp

/-- The result of `setupGLFW` once `glfwInit` has not failed: it succeeds exactly
when `glfwCreateWindow` does, and then the new window is the last of the table,
carries the instance as user pointer and the close callback in standalone mode
only, and is the `fWindow` of the instance. -/
theorem setupGLFW_result (s : State) (i : InstId) (inst : Instance) (initOk createOk : Bool)
    (hi : s.instances[i]? = some inst)
    (hinit : ¬ (s.glfw_initialized_cnt = 0 ∧ initOk = false)) :
    (setupGLFW s i initOk createOk).1 = createOk ∧
    (setupGLFW s i initOk createOk).2.state.glfw_initialized_cnt = incr32 s.glfw_initialized_cnt ∧
    (createOk = true →
      (setupGLFW s i initOk createOk).2.state.windows[s.windows.length]? =
        some { width := toInt32 inst.width, height := toInt32 inst.height, shouldClose := false,
               userPointer := some i, closeCallback := inst.standalone, inputCallbacks := false,
               destroyed := false } ∧
      (setupGLFW s i initOk createOk).2.state.instances[i]? =
        some { inst with fWindow := some s.windows.length }) := by
  have hlt := lt_of_getElem? hi
  unfold setupGLFW
  simp only [hi, hinit, if_false]
  cases createOk
  · simp
  · simp [hlt]

theorem close_callback_calls (t : State) (w : WinId) (win : Window) (j : InstId)
    (hw : t.windows[w]? = some win) (hp : win.userPointer = some j) :
    glfw_window_close_callback t w = ⟨[Call.glfwGetWindowUserPointer w, Call.hide j], t⟩ := by
  unfold glfw_window_close_callback
  simp only [hw, hp]

theorem closeRequest_calls (t : State) (w : WinId) (win : Window)
    (hw : t.windows[w]? = some win) (hd : win.destroyed = false) :
    (closeRequest t w).calls =
      if win.closeCallback = true then (glfw_window_close_callback t w).calls else [] := by
  unfold closeRequest glfw_window_close_callback
  simp only [hw, hd]
  cases win.closeCallback
  · simp
  · cases win.userPointer <;> simp

/-- C11: once `glfwInit` has not failed, `setupGLFW` on an embedded instance
sets the hints resizable = false, decorated = false, embedded = true and the
parent handle, in this order, right before `glfwCreateWindow` with the
instance's width and height (as `int`), then, on success, places the window at
(0,0) and stores the instance as user pointer, installing no close callback; on
a standalone instance it sets no hint and, on success, places the window,
installs the close callback and stores the instance as user pointer. It
succeeds exactly when `glfwCreateWindow` does, and the new window then carries
the instance as user pointer. `glfw_window_close_callback` reads the user
pointer, calls `hide()` on that instance and leaves the state as it is; it is
what a close request reaches, on windows with the callback only. With a counter
of 0 the open ends with counter 1. -/
theorem C11_setupGLFW_modes (s : State) (i : InstId) (inst : Instance) (initOk createOk : Bool)
    (hi : s.instances[i]? = some inst)
    (hinit : ¬ (s.glfw_initialized_cnt = 0 ∧ initOk = false)) :
    (inst.standalone = false →
      (setupGLFW s i initOk createOk).2.calls =
        (if s.glfw_initialized_cnt = 0 then [Call.glfwSetErrorCallback, Call.glfwInit] else []) ++
        [Call.glfwWindowHint Hint.GLFW_RESIZABLE false,
         Call.glfwWindowHint Hint.GLFW_DECORATED false,
         Call.glfwWindowHint Hint.GLFW_EMBEDDED_WINDOW true,
         Call.glfwWindowHintVoid inst.parent,
         Call.glfwCreateWindow (toInt32 inst.width) (toInt32 inst.height)] ++
        (if createOk = true then
          [Call.glfwSetWindowPos (some s.windows.length) 0 0,
           Call.glfwSetWindowUserPointer (some s.windows.length) i]
         else [])) ∧
    (inst.standalone = true →
      (setupGLFW s i initOk createOk).2.calls =
        (if s.glfw_initialized_cnt = 0 then [Call.glfwSetErrorCallback, Call.glfwInit] else []) ++
        [Call.glfwCreateWindow (toInt32 inst.width) (toInt32 inst.height)] ++
        (if createOk = true then
          [Call.glfwSetWindowPos (some s.windows.length) 0 0,
           Call.glfwSetWindowCloseCallback (some s.windows.length),
           Call.glfwSetWindowUserPointer (some s.windows.length) i]
         else [])) ∧
    (inst.width < 2 ^ 31 → inst.height < 2 ^ 31 →
      Call.glfwCreateWindow (inst.width : Int) (inst.height : Int) ∈
        (setupGLFW s i initOk createOk).2.calls) ∧
    (setupGLFW s i initOk createOk).1 = createOk ∧
    (createOk = true →
      (setupGLFW s i initOk createOk).2.state.windows[s.windows.length]? =
        some { width := toInt32 inst.width, height := toInt32 inst.height, shouldClose := false,
               userPointer := some i, closeCallback := inst.standalone, inputCallbacks := false,
               destroyed := false } ∧
      (setupGLFW s i initOk createOk).2.state.instances[i]? =
        some { inst with fWindow := some s.windows.length }) ∧
    (s.glfw_initialized_cnt = 0 →
      (setupGLFW s i initOk createOk).2.state.glfw_initialized_cnt = 1) ∧
    (∀ (t : State) (w : WinId) (win : Window) (j : InstId),
      t.windows[w]? = some win → win.userPointer = some j →
      glfw_window_close_callback t w = ⟨[Call.glfwGetWindowUserPointer w, Call.hide j], t⟩) ∧
    (∀ (t : State) (w : WinId) (win : Window),
      t.windows[w]? = some win → win.destroyed = false →
      (closeRequest t w).calls =
        if win.closeCallback = true then (glfw_window_close_callback t w).calls else []) := by
  have hres := setupGLFW_result s i inst initOk createOk hi hinit
  refine ⟨setupGLFW_embedded s i inst initOk createOk hi hinit,
    setupGLFW_standalone s i inst initOk createOk hi hinit, ?_, hres.1, hres.2.2, ?_,
    close_callback_calls, closeRequest_calls⟩
  · intro hw hh
    rw [← toInt32_of_lt inst.width hw, ← toInt32_of_lt inst.height hh]
    cases hm : inst.standalone
    · rw [setupGLFW_embedded s i inst initOk createOk hi hinit hm]
      simp
    · rw [setupGLFW_standalone s i inst initOk createOk hi hinit hm]
      simp
  · intro h0
    rw [hres.2.1, h0]
    rfl

/-- Witness of C11: an 800x600 embedded open under parent 4242 with an initial
counter of 0 sets the four hints, creates the 800x600 window, places it at
(0,0), installs no close callback, stores the instance as user pointer and ends
with counter 1. -/
theorem C11_setupGLFW_modes_witness :
    embeddedFresh.instances[0]? = some (newInstance false 4242 800 600) ∧
    ¬ (embeddedFresh.glfw_initialized_cnt = 0 ∧ true = false) ∧
    (setupGLFW embeddedFresh 0 true true).2.calls =
      [Call.glfwSetErrorCallback, Call.glfwInit,
       Call.glfwWindowHint Hint.GLFW_RESIZABLE false,
       Call.glfwWindowHint Hint.GLFW_DECORATED false,
       Call.glfwWindowHint Hint.GLFW_EMBEDDED_WINDOW true,
       Call.glfwWindowHintVoid 4242,
       Call.glfwCreateWindow 800 600,
       Call.glfwSetWindowPos (some 0) 0 0,
       Call.glfwSetWindowUserPointer (some 0) 0] ∧
    (setupGLFW embeddedFresh 0 true true).2.state.glfw_initialized_cnt = 1 ∧
    embeddedOpen.glfw_initialized_cnt = 1 :=
  ⟨by decide, by decide, by decide,
    (C11_setupGLFW_modes embeddedFresh 0 (newInstance false 4242 800 600) true true
      (by decide) (by decide)).2.2.2.2.2.1 (by decide),
    by decide⟩

theorem setupImGui_calls (s : State) (i : InstId) (inst : Instance)
    (hi : s.instances[i]? = some inst) :
    (setupImGui s i).calls = setupCalls inst.fWindow s.contexts.length i := by
  have hlt := lt_of_getElem? hi
  unfold setupImGui _setMyGLFWCallbacks setupCalls
  simp [hi, hlt]

theorem setupImGui_instance (s : State) (i : InstId) (inst : Instance)
    (hi : s.instances[i]? = some inst) :
    (setupImGui s i).state.instances[i]? =
      some { inst with fMyImGuiContext := some s.contexts.length } := by
  have hlt := lt_of_getElem? hi
  rw [setupImGui_state s i inst hi]
  simp [hlt]

theorem setupImGui_contexts (s : State) (i : InstId) (inst : Instance)
    (hi : s.instances[i]? = some inst) :
    (setupImGui s i).state.contexts =
      s.contexts ++ [{ displayX := toFloat inst.width, displayY := toFloat inst.height,
                       destroyed := false }] := by
  rw [setupImGui_state s i inst hi]
  simp

theorem drawFrame_calls (s : State) (i : InstId) (inst : Instance) (c : CtxId)
    (hi : s.instances[i]? = some inst) (hc : inst.fMyImGuiContext = some c) :
    drawFrame s i = ⟨frameCalls inst.fWindow c, s⟩ := by
  unfold drawFrame frameCalls
  simp only [hi, hc]

theorem drawingThreadCleanup_calls (s : State) (i : InstId) (inst : Instance) (c : CtxId)
    (hi : s.instances[i]? = some inst) (hc : inst.fMyImGuiContext = some c) :
    drawingThreadCleanup s i =
      ⟨[Call.ImGui_SetCurrentContext (some c), Call.ImGui_ImplOpenGL2_Shutdown,
        Call.ImGui_ImplGlfw_Shutdown, Call.ImGui_DestroyContext (some c)],
       s.updContext (some c) (fun ctx => { ctx with destroyed := true })⟩ := by
  unfold drawingThreadCleanup
  simp only [hi, hc]

/-- The loop on `n` answers false followed by an answer true: `n` frames, then
the exit, and the state after the clean-up is returned. -/
theorem drawLoop_exit (s : State) (i : InstId) (inst : Instance) (c : CtxId) (n : Nat)
    (rest : List Bool) (hi : s.instances[i]? = some inst) (hc : inst.fMyImGuiContext = some c) :
    drawLoop s i (List.replicate n false ++ true :: rest) =
      ⟨loopCalls inst.fWindow c n ++ exitCalls inst.fWindow c,
       some (s.updContext (some c) (fun ctx => { ctx with destroyed := true }))⟩ := by
  induction n with
  | zero =>
    simp only [List.replicate_zero, List.nil_append, drawLoop, hi, loopCalls, exitCalls,
      drawingThreadCleanup_calls s i inst c hi hc]
  | succ k ih =>
    simp only [List.replicate_succ, List.cons_append, drawLoop, hi, loopCalls,
      drawFrame_calls s i inst c hi hc, List.append_eq, ih, List.append_assoc]

/-- The loop on `n` answers false and no more: `n` frames, and the loop is still
running. -/
theorem drawLoop_running (s : State) (i : InstId) (inst : Instance) (c : CtxId) (n : Nat)
    (hi : s.instances[i]? = some inst) (hc : inst.fMyImGuiContext = some c) :
    drawLoop s i (List.replicate n false) = ⟨loopCalls inst.fWindow c n, none⟩ := by
  induction n with
  | zero => rfl
  | succ k ih =>
    simp only [List.replicate_succ, drawLoop, hi, loopCalls,
      drawFrame_calls s i inst c hi hc, ih]

theorem count_swap_frameCalls (w : Option WinId) (c : CtxId) :
    (frameCalls w c).count (Call.glfwSwapBuffers w) = 1 := by
  simp [frameCalls, List.count_cons]

theorem count_swap_loopCalls (w : Option WinId) (c : CtxId) (n : Nat) :
    (loopCalls w c n).count (Call.glfwSwapBuffers w) = n := by
  induction n with
  | zero => rfl
  | succ k ih =>
    simp only [loopCalls, List.count_cons, List.count_append, ih, count_swap_frameCalls]
    simp
    omega

theorem count_create_loopCalls (w : Option WinId) (c : CtxId) (n : Nat) :
    (loopCalls w c n).count Call.ImGui_CreateContext = 0 := by
  induction n with
  | zero => rfl
  | succ k ih =>
    simp only [loopCalls, List.count_cons, List.count_append, ih]
    simp [frameCalls, List.count_cons]

/-- A scheduler step of a running thread is one loop iteration with the flag of
the state as answer, and a scheduler step of a thread just spawned is
`setupImGui`. -/
theorem threadStep_is_one_iteration (s : State) (i : InstId) (inst : Instance)
    (hi : s.instances[i]? = some inst) :
    (inst.fDrawingThread = ThreadPhase.starting →
      (threadStep s i).calls = (setupImGui s i).calls) ∧
    (inst.fDrawingThread = ThreadPhase.running →
      (threadStep s i).calls = (drawLoop s i [s.windowShouldClose inst.fWindow]).calls) := by
  constructor
  · intro hp
    unfold threadStep
    simp only [hi, hp]
    split <;> rfl
  · intro hp
    unfold threadStep
    simp only [hi, hp]
    cases hf : s.windowShouldClose inst.fWindow
    · simp [drawLoop, hi]
    · simp [drawLoop, hi]

/-- C12: `imgui_drawing_thread` on `n` loop iterations that find the flag false
followed by one that finds it true issues the calls of `setupImGui` once, then
`n` times the test of the flag followed by one frame, then the last test, the
activation of the instance's context, `ImGui_ImplOpenGL2_Shutdown`,
`ImGui_ImplGlfw_Shutdown` and `ImGui::DestroyContext` of that context, in this
order, and returns with the context destroyed; what the flag does afterwards
(`rest`) plays no part, and `n = 0` gives no frame. While every iteration finds
the flag false the procedure has drawn one frame for each and has not returned. -/
theorem C12_drawing_thread_procedure (s : State) (i : InstId) (inst : Instance) (n : Nat)
    (rest : List Bool) (hi : s.instances[i]? = some inst) :
    (imgui_drawing_thread s i (List.replicate n false ++ true :: rest)).calls =
      setupCalls inst.fWindow s.contexts.length i ++
      (loopCalls inst.fWindow s.contexts.length n ++ exitCalls inst.fWindow s.contexts.length) ∧
    (∃ s1, (imgui_drawing_thread s i (List.replicate n false ++ true :: rest)).state = some s1 ∧
      s1.instances[i]? = some { inst with fMyImGuiContext := some s.contexts.length } ∧
      s1.contexts[s.contexts.length]? =
        some { displayX := toFloat inst.width, displayY := toFloat inst.height,
               destroyed := true }) ∧
    (imgui_drawing_thread s i (List.replicate n false ++ true :: rest)).calls.count
      Call.ImGui_CreateContext = 1 ∧
    (imgui_drawing_thread s i (List.replicate n false ++ true :: rest)).calls.count
      (Call.glfwSwapBuffers inst.fWindow) = n ∧
    (imgui_drawing_thread s i (List.replicate n false)).calls =
      setupCalls inst.fWindow s.contexts.length i ++ loopCalls inst.fWindow s.contexts.length n ∧
    (imgui_drawing_thread s i (List.replicate n false)).state = none := by
  have h1 := setupImGui_instance s i inst hi
  have hexit := drawLoop_exit (setupImGui s i).state i
    { inst with fMyImGuiContext := some s.contexts.length } s.contexts.length n rest h1 rfl
  have hrun := drawLoop_running (setupImGui s i).state i
    { inst with fMyImGuiContext := some s.contexts.length } s.contexts.length n h1 rfl
  have hcalls : (imgui_drawing_thread s i (List.replicate n false ++ true :: rest)).calls =
      setupCalls inst.fWindow s.contexts.length i ++
      (loopCalls inst.fWindow s.contexts.length n ++ exitCalls inst.fWindow s.contexts.length) := by
    unfold imgui_drawing_thread
    simp only [hexit, setupImGui_calls s i inst hi]
  refine ⟨hcalls, ?_, ?_, ?_, ?_, ?_⟩
  · refine ⟨(setupImGui s i).state.updContext (some s.contexts.length)
      (fun ctx => { ctx with destroyed := true }), ?_, ?_, ?_⟩
    · unfold imgui_drawing_thread
      simp only [hexit]
    · rw [updContext_instances]
      exact h1
    · unfold State.updContext
      simp [setupImGui_contexts s i inst hi]
  · rw [hcalls, List.count_append, List.count_append, count_create_loopCalls]
    simp [setupCalls, exitCalls, List.count_cons]
  · rw [hcalls, List.count_append, List.count_append, count_swap_loopCalls]
    simp [setupCalls, exitCalls, List.count_cons]
  · unfold imgui_drawing_thread
    simp only [hrun, setupImGui_calls s i inst hi]
  · unfold imgui_drawing_thread
    simp only [hrun]

/-- Witness of C12: on the embedded 800x600 instance the thread procedure that
finds the flag false twice and then true draws two frames and returns; with the
flag set from the start it draws none. -/
theorem C12_drawing_thread_procedure_witness :
    (embeddedOpen.instances[0]?).map (fun x => x.fWindow) = some (some 0) ∧
    (imgui_drawing_thread embeddedOpen 0 [false, false, true, false]).calls =
      setupCalls (some 0) 0 0 ++
      (Call.glfwWindowShouldClose (some 0) :: frameCalls (some 0) 0 ++
       (Call.glfwWindowShouldClose (some 0) :: frameCalls (some 0) 0) ++
       exitCalls (some 0) 0) ∧
    (imgui_drawing_thread embeddedOpen 0 [false, false, true, false]).calls.count
      (Call.glfwSwapBuffers (some 0)) = 2 ∧
    (imgui_drawing_thread embeddedOpen 0 [true]).calls =
      setupCalls (some 0) 0 0 ++ exitCalls (some 0) 0 :=
  ⟨by decide, by decide,
    (C12_drawing_thread_procedure embeddedOpen 0
      { standalone := false, parent := 4242, width := 800, height := 600, fWindow := some 0,
        fMyImGuiContext := none, fDrawingThread := ThreadPhase.starting } 2 [false]
      (by decide)).2.2.2.1,
    by decide⟩

/-- C13 (the code departs from the claim): the first open fails in `glfwInit`,
so the library is not initialised and the counter is 1; the next open, whatever
`glfwInit` and `glfwCreateWindow` would answer, finds the counter at 1, does not
call `glfwInit` and calls `glfwCreateWindow` with the library still not
initialised. -/
theorem C13_createWindow_without_init :
    (exec [Op.create true 0 640 480 false true] State.init).map
        (fun s => (s.glfwInitialized, s.glfw_initialized_cnt)) = some (false, 1) ∧
    (∀ initOk createOk : Bool,
      (exec [Op.create true 0 640 480 false true] State.init).map
        (fun s => ((construct s true 0 640 480 initOk createOk).calls.contains Call.glfwInit,
                   (construct s true 0 640 480 initOk createOk).calls.contains
                     (Call.glfwCreateWindow 640 480),
                   (construct s true 0 640 480 initOk createOk).state.glfwInitialized))
        = some (false, true, false)) := by
  decide

end GlfwBackend
